import Mathlib

/-!
Verification of the FinanceMgmt Monte-Carlo simulation core.

All monetary quantities are modelled over `ℚ` (the Python source uses IEEE
doubles; the properties checked here are exact-arithmetic properties of the
algorithms). Mutable Python objects become records threaded through state;
Python dict iteration / insertion order becomes association-list order;
`raise` becomes `Except.error`.

Sources embedded:
  backend/simulation/tax/income_tax.py, national_insurance.py, pension_relief.py,
  withdrawals.py, pension_drawdown.py, calculator.py
  backend/simulation/entities/{person,salary,rental_income,gift_income,expense,
  asset,pension,mortgage}.py
  backend/simulation/engine.py   (cached-returns reference path)
  backend/simulation/engine_fast.py (Numba kernel)
  backend/simulation/array_scenario.py, returns_cache.py (shape logic)
-/

namespace FinanceMgmt

/-- Python's `str.lower()` (names in this codebase are ASCII). -/
def pyLower (s : String) : String := String.mk (s.data.map Char.toLower)

/-- Python's `str.upper()`. -/
def pyUpper (s : String) : String := String.mk (s.data.map Char.toUpper)

/-- Stable insertion of `x` into a list sorted by the total boolean preorder
`le`: `x` goes before the first element `y` with `¬ le x y`. Matches the
result of Python's stable `list.sort` for the same key order. -/
def insertLe (le : α → α → Bool) (x : α) : List α → List α
  | [] => [x]
  | y :: ys => if le x y then x :: y :: ys else y :: insertLe le x ys

/-- Stable insertion sort: `pySort le l` equals Python's `sorted(l, key)` when
`le` is the (total, transitive) key comparison. -/
def pySort (le : α → α → Bool) : List α → List α
  | [] => []
  | x :: xs => insertLe le x (pySort le xs)

/-! ## Tax primitives (backend/simulation/tax) -/

/-- `IncomeTaxBands` from income_tax.py, with its UK default values. -/
structure IncomeTaxBands where
  personal_allowance : ℚ := 12570
  basic_rate_limit : ℚ := 50270
  higher_rate_limit : ℚ := 125140
  basic_rate : ℚ := 1/5
  higher_rate : ℚ := 2/5
  additional_rate : ℚ := 9/20
deriving DecidableEq

/-- The default-constructed `IncomeTaxBands()` (UK 2024/25), which every call
site in the simulation uses. -/
def ukBands : IncomeTaxBands := {}

/-- `calculate_income_tax` (income_tax.py lines 17-44): progressive banding
with early returns. -/
def calculateIncomeTax (taxable_income : ℚ) (bands : IncomeTaxBands) : ℚ :=
  if taxable_income ≤ 0 then 0
  else
    let remaining := taxable_income
    let allowance := min remaining bands.personal_allowance
    let remaining := remaining - allowance
    if remaining ≤ 0 then 0
    else
      let basic_band := max 0 (bands.basic_rate_limit - bands.personal_allowance)
      let basic_amount := min remaining basic_band
      let tax := basic_amount * bands.basic_rate
      let remaining := remaining - basic_amount
      if remaining ≤ 0 then tax
      else
        let higher_band := max 0 (bands.higher_rate_limit - bands.basic_rate_limit)
        let higher_amount := min remaining higher_band
        let tax := tax + higher_amount * bands.higher_rate
        let remaining := remaining - higher_amount
        if remaining ≤ 0 then tax
        else tax + remaining * bands.additional_rate

/-- `NationalInsuranceBands` from national_insurance.py with defaults. -/
structure NationalInsuranceBands where
  primary_threshold : ℚ := 12570
  upper_earnings_limit : ℚ := 50270
  main_rate : ℚ := 2/25
  upper_rate : ℚ := 1/50
deriving DecidableEq

/-- The default-constructed `NationalInsuranceBands()`. -/
def ukNiBands : NationalInsuranceBands := {}

/-- `calculate_ni_class1` (national_insurance.py). -/
def calculateNiClass1 (gross_annual : ℚ) (bands : NationalInsuranceBands) : ℚ :=
  if gross_annual ≤ bands.primary_threshold then 0
  else
    let main_amount := min gross_annual bands.upper_earnings_limit - bands.primary_threshold
    let upper_amount := max 0 (gross_annual - bands.upper_earnings_limit)
    main_amount * bands.main_rate + upper_amount * bands.upper_rate

/-- `apply_pension_contribution_relief` (pension_relief.py). -/
def applyPensionContributionRelief (employee_contribution : ℚ) : ℚ :=
  max 0 employee_contribution

/-- `TaxBreakdown` (calculator.py). `total_tax` is the derived property. -/
structure TaxBreakdown where
  taxable_income : ℚ
  income_tax : ℚ
  national_insurance : ℚ
deriving DecidableEq

def TaxBreakdown.total_tax (t : TaxBreakdown) : ℚ := t.income_tax + t.national_insurance

/-- `TaxCalculator.calculate_for_salary` (calculator.py) with default bands. -/
def calculateForSalary (gross_salary employee_pension_contribution : ℚ) : TaxBreakdown :=
  let pension_relief := applyPensionContributionRelief employee_pension_contribution
  let taxable_income := max 0 (gross_salary - pension_relief)
  { taxable_income := taxable_income
    income_tax := calculateIncomeTax taxable_income ukBands
    national_insurance := calculateNiClass1 gross_salary ukNiBands }

/-- `TaxCalculator.calculate_income_tax_on_additional_income` (calculator.py). -/
def incomeTaxOnAdditionalIncome (base_taxable_income additional_income : ℚ) : ℚ :=
  if additional_income ≤ 0 then 0
  else
    calculateIncomeTax (max 0 (base_taxable_income + additional_income)) ukBands -
      calculateIncomeTax (max 0 base_taxable_income) ukBands

/-- `WithdrawalResult` (withdrawals.py). -/
structure WithdrawalResult where
  gross_withdrawal : ℚ
  tax_paid : ℚ
  net_withdrawal : ℚ
deriving DecidableEq

/-- `GiaWithdrawalResult` (withdrawals.py; flattened inheritance). -/
structure GiaWithdrawalResult where
  gross_withdrawal : ℚ
  tax_paid : ℚ
  net_withdrawal : ℚ
  gains_realized : ℚ
  cgt_allowance_used : ℚ
  cgt_allowance_remaining : ℚ
deriving DecidableEq

/-- `calculate_tax_free_withdrawal` (withdrawals.py). -/
def calculateTaxFreeWithdrawal (requested balance : ℚ) : WithdrawalResult :=
  if requested ≤ 0 ∨ balance ≤ 0 then
    { gross_withdrawal := 0, tax_paid := 0, net_withdrawal := 0 }
  else
    let gross := min balance requested
    { gross_withdrawal := gross, tax_paid := 0, net_withdrawal := gross }

/-- `calculate_gia_withdrawal` (withdrawals.py lines 28-77). -/
def calculateGiaWithdrawal (requested balance cost_basis cgt_allowance_remaining cgt_rate : ℚ) :
    GiaWithdrawalResult :=
  if requested ≤ 0 ∨ balance ≤ 0 then
    { gross_withdrawal := 0, tax_paid := 0, net_withdrawal := 0, gains_realized := 0
      cgt_allowance_used := 0, cgt_allowance_remaining := max 0 cgt_allowance_remaining }
  else
    let gross := min balance requested
    let safe_balance := max 0 balance
    let safe_cost_basis := max 0 cost_basis
    let total_gains := max 0 (safe_balance - safe_cost_basis)
    let gainsFrac := if 0 < safe_balance then total_gains / safe_balance else 0
    let gains_realized := gross * gainsFrac
    let allowance_remaining := max 0 cgt_allowance_remaining
    let allowance_used := min allowance_remaining gains_realized
    let taxable_gains := max 0 (gains_realized - allowance_used)
    let tax_paid := taxable_gains * max 0 cgt_rate
    { gross_withdrawal := gross, tax_paid := tax_paid, net_withdrawal := gross - tax_paid
      gains_realized := gains_realized, cgt_allowance_used := allowance_used
      cgt_allowance_remaining := allowance_remaining - allowance_used }

/-! ### Pension drawdown (pension_drawdown.py) -/

/-- `PensionDrawdownResult`. -/
structure PensionDrawdownResult where
  gross_withdrawal : ℚ
  tax_free_amount : ℚ
  taxable_amount : ℚ
  tax_paid : ℚ
  net_income : ℚ
deriving DecidableEq

/-- One pass of the band loop body in `_solve_taxable_amount` (lines 141-161):
`Sum.inl` is the early `return`, `Sum.inr` the carried
(current_income, taxable_needed, remaining_net) state. The `band_start` is the
loop's `previous_limit` for this pass, which is statically the previous band's
limit. -/
def solveBandStep (band_start band_end rate : ℚ) (cur needed rem : ℚ) :
    Sum ℚ (ℚ × ℚ × ℚ) :=
  if band_end ≤ cur then Sum.inr (cur, needed, rem)
  else
    let available := band_end - max cur band_start
    if available ≤ 0 then Sum.inr (cur, needed, rem)
    else
      let net_per_taxable := 4/3 - rate
      let net_available := available * net_per_taxable
      if rem ≤ net_available then Sum.inl (needed + rem / net_per_taxable)
      else Sum.inr (band_end, needed + available, rem - net_available)

/-- `_solve_taxable_amount` (pension_drawdown.py lines 119-169): the three-band
walk followed by the unbounded additional-rate band. -/
def solveTaxableAmount (target_net_income other_taxable_income : ℚ)
    (bands : IncomeTaxBands) : ℚ :=
  if target_net_income ≤ 0 then 0
  else
    let base_income := max 0 other_taxable_income
    match solveBandStep 0 bands.personal_allowance 0 base_income 0 target_net_income with
    | Sum.inl r => r
    | Sum.inr (c1, n1, r1) =>
      match solveBandStep bands.personal_allowance bands.basic_rate_limit
          bands.basic_rate c1 n1 r1 with
      | Sum.inl r => r
      | Sum.inr (c2, n2, r2) =>
        match solveBandStep bands.basic_rate_limit bands.higher_rate_limit
            bands.higher_rate c2 n2 r2 with
        | Sum.inl r => r
        | Sum.inr (_, n3, r3) =>
          let net_per_taxable := 4/3 - bands.additional_rate
          if net_per_taxable ≤ 0 then n3 else n3 + r3 / net_per_taxable

/-- `_solve_gross_withdrawal` (pension_drawdown.py lines 95-116). -/
def solveGrossWithdrawal (target_net_income other_taxable_income pension_balance : ℚ)
    (bands : IncomeTaxBands) : ℚ :=
  let taxable_target := solveTaxableAmount target_net_income other_taxable_income bands
  let gross := if 0 < taxable_target then taxable_target / (3/4) else 0
  min gross pension_balance

/-- `_calculate_for_gross` (pension_drawdown.py lines 65-92). -/
def calculateForGross (gross_withdrawal other_taxable_income : ℚ)
    (bands : IncomeTaxBands) : PensionDrawdownResult :=
  let tax_free_amount := gross_withdrawal * (1/4)
  let taxable_amount := gross_withdrawal * (3/4)
  let total_tax := calculateIncomeTax (other_taxable_income + taxable_amount) bands
  let tax_on_other := calculateIncomeTax other_taxable_income bands
  let pension_tax := total_tax - tax_on_other
  { gross_withdrawal := gross_withdrawal, tax_free_amount := tax_free_amount
    taxable_amount := taxable_amount, tax_paid := pension_tax
    net_income := gross_withdrawal - pension_tax }

/-- `calculate_pension_drawdown` (pension_drawdown.py lines 18-62); `bands`
defaults to the UK defaults as in the source. -/
def calculatePensionDrawdown (target_net_income other_taxable_income pension_balance : ℚ)
    (bands : IncomeTaxBands := ukBands) : PensionDrawdownResult :=
  if target_net_income ≤ 0 ∨ pension_balance ≤ 0 then
    { gross_withdrawal := 0, tax_free_amount := 0, taxable_amount := 0
      tax_paid := 0, net_income := 0 }
  else
    let gross := solveGrossWithdrawal target_net_income other_taxable_income
      pension_balance bands
    calculateForGross gross other_taxable_income bands

/-! ## Entities (backend/simulation/entities) -/

/-- `PersonEntity` (person.py); only the birth year of `birth_date` is ever
read, so it is embedded directly. -/
structure PersonEntity where
  key : String
  birth_year : ℤ
  planned_retirement_age : Option ℤ := none
  state_pension_age : Option ℤ := none
  is_child : Bool := false
  annual_cost : ℚ := 0
  leaves_household_age : ℤ := 18
deriving DecidableEq

def PersonEntity.ageInYear (p : PersonEntity) (year : ℤ) : ℤ := year - p.birth_year

/-- `PersonEntity.is_retired_in_year`: children are never retired. -/
def PersonEntity.isRetiredInYear (p : PersonEntity) (year : ℤ) : Bool :=
  if p.is_child then false
  else match p.planned_retirement_age with
    | none => false
    | some ra => decide (ra ≤ p.ageInYear year)

/-- `PersonEntity.is_state_pension_eligible_in_year`. -/
def PersonEntity.isStatePensionEligibleInYear (p : PersonEntity) (year : ℤ) : Bool :=
  if p.is_child then false
  else match p.state_pension_age with
    | none => false
    | some spa => decide (spa ≤ p.ageInYear year)

/-- `PersonEntity.can_access_pension_in_year`. -/
def PersonEntity.canAccessPensionInYear (p : PersonEntity) (year min_access_age : ℤ) : Bool :=
  if p.is_child then false else decide (min_access_age ≤ p.ageInYear year)

/-- `SalaryIncome` (salary.py); `salary_gross_out` is the `_salary_gross`
per-year counter. -/
structure SalaryIncome where
  gross_annual : ℚ
  annual_growth_rate : ℚ
  employee_pension_pct : ℚ
  employer_pension_pct : ℚ
  start_year : Option ℤ := none
  end_year : Option ℤ := none
  salary_gross_out : ℚ := 0
deriving DecidableEq

/-- `SalaryIncome.step`: zero output outside the active window, otherwise grow
`gross_annual` and report it. -/
def SalaryIncome.step (s : SalaryIncome) (year : ℤ) : SalaryIncome :=
  if s.start_year.any (fun sy => year < sy) then { s with salary_gross_out := 0 }
  else if s.end_year.any (fun ey => ey < year) then { s with salary_gross_out := 0 }
  else
    let g := s.gross_annual * (1 + s.annual_growth_rate)
    { s with gross_annual := g, salary_gross_out := g }

/-- `RentalIncome` (rental_income.py); `income_gross_out` is `_income_gross`. -/
structure RentalIncome where
  gross_annual : ℚ
  annual_growth_rate : ℚ
  start_year : Option ℤ := none
  end_year : Option ℤ := none
  income_gross_out : ℚ := 0
deriving DecidableEq

def RentalIncome.step (r : RentalIncome) (year : ℤ) : RentalIncome :=
  if r.start_year.any (fun sy => year < sy) then { r with income_gross_out := 0 }
  else if r.end_year.any (fun ey => ey < year) then { r with income_gross_out := 0 }
  else
    let g := r.gross_annual * (1 + r.annual_growth_rate)
    { r with gross_annual := g, income_gross_out := g }

/-- `GiftIncome` (gift_income.py); identical step rule to rental income. -/
structure GiftIncome where
  gross_annual : ℚ
  annual_growth_rate : ℚ
  start_year : Option ℤ := none
  end_year : Option ℤ := none
  income_gross_out : ℚ := 0
deriving DecidableEq

def GiftIncome.step (g : GiftIncome) (year : ℤ) : GiftIncome :=
  if g.start_year.any (fun sy => year < sy) then { g with income_gross_out := 0 }
  else if g.end_year.any (fun ey => ey < year) then { g with income_gross_out := 0 }
  else
    let v := g.gross_annual * (1 + g.annual_growth_rate)
    { g with gross_annual := v, income_gross_out := v }

/-- `ExpenseItem` (expense.py); `annual_spend_out` is `_annual_spend`. -/
structure ExpenseItem where
  name : String
  annual_amount : ℚ
  is_inflation_linked : Bool := true
  annual_spend_out : ℚ := 0
deriving DecidableEq

/-- `ExpenseItem.step`: spend this year's amount, then inflate for next year. -/
def ExpenseItem.step (e : ExpenseItem) (inflation_rate : ℚ) : ExpenseItem :=
  let spent := e.annual_amount
  let amt := if e.is_inflation_linked then e.annual_amount * (1 + inflation_rate)
             else e.annual_amount
  { e with annual_amount := amt, annual_spend_out := spent }

/-- `AssetAccount` (asset.py); the four underscore counters become the
`*_made`/`inv_return` fields. -/
structure AssetAccount where
  name : String
  asset_type : String
  withdrawal_priority : ℤ
  balance : ℚ
  annual_contribution : ℚ
  growth_rate_mean : ℚ
  growth_rate_std : ℚ
  contributions_end_at_retirement : Bool
  cost_basis : ℚ := 0
  inv_return : ℚ := 0
  contribution_made : ℚ := 0
  withdrawals_made : ℚ := 0
  deposits_made : ℚ := 0
deriving DecidableEq

/-- `AssetAccount.deposit` (asset.py lines 30-41). -/
def AssetAccount.deposit (a : AssetAccount) (amount : ℚ) : AssetAccount :=
  if amount ≤ 0 then a
  else
    { a with deposits_made := a.deposits_made + amount
             contribution_made := a.contribution_made + amount
             balance := a.balance + amount
             cost_basis := a.cost_basis + amount }

/-- `AssetAccount.withdraw` (asset.py lines 43-57): clamp at balance and
reduce the cost basis proportionally, floored at zero. -/
def AssetAccount.withdraw (a : AssetAccount) (amount : ℚ) : AssetAccount :=
  if amount ≤ 0 ∨ a.balance ≤ 0 then a
  else
    let starting_balance := a.balance
    let withdrawn := min starting_balance amount
    let basis :=
      if 0 < starting_balance ∧ 0 < a.cost_basis then
        max 0 (a.cost_basis - a.cost_basis * (withdrawn / starting_balance))
      else a.cost_basis
    { a with balance := starting_balance - withdrawn
             withdrawals_made := a.withdrawals_made + withdrawn
             cost_basis := basis }

/-- `AssetAccount.begin_year`. -/
def AssetAccount.beginYear (a : AssetAccount) : AssetAccount :=
  { a with inv_return := 0, contribution_made := 0, withdrawals_made := 0, deposits_made := 0 }

/-- `AssetAccount.apply_growth` with the sampled (or cached) annual return made
explicit; also `_apply_asset_growth_with_return` (engine.py lines 570-574),
which performs the same update. -/
def AssetAccount.applyGrowth (a : AssetAccount) (annual_return : ℚ) : AssetAccount :=
  let inv := a.balance * annual_return
  { a with inv_return := inv, balance := a.balance + inv }

/-- `PensionPot` (pension.py). -/
structure PensionPot where
  balance : ℚ
  growth_rate_mean : ℚ := 1/20
  growth_rate_std : ℚ := 1/10
  annual_return : ℚ := 0
  inv_return : ℚ := 0
  contributions : ℚ := 0
  withdrawals_made : ℚ := 0
deriving DecidableEq

def PensionPot.beginYear (p : PensionPot) : PensionPot :=
  { p with inv_return := 0, contributions := 0, withdrawals_made := 0 }

def PensionPot.contribute (p : PensionPot) (amount : ℚ) : PensionPot :=
  if amount ≤ 0 then p
  else { p with contributions := p.contributions + amount, balance := p.balance + amount }

def PensionPot.withdraw (p : PensionPot) (amount : ℚ) : PensionPot :=
  if amount ≤ 0 then p
  else
    let withdrawn := min p.balance amount
    { p with withdrawals_made := p.withdrawals_made + withdrawn
             balance := p.balance - withdrawn }

/-- `PensionPot.step`: resets the per-year counters, then applies
`annual_return` multiplicatively. -/
def PensionPot.step (p : PensionPot) : PensionPot :=
  let p := p.beginYear
  let inv := p.balance * p.annual_return
  { p with inv_return := inv, balance := p.balance + inv }

/-- `MortgageAccount` (mortgage.py): `months_remaining` has no default in the
source dataclass, so it is a required constructor argument there. -/
structure MortgageAccount where
  balance : ℚ
  annual_interest_rate : ℚ
  monthly_payment : ℚ
  months_remaining : ℤ
  interest_paid : ℚ := 0
  principal_paid : ℚ := 0
  payment_made : ℚ := 0
deriving DecidableEq

/-- One monthly sub-step of `MortgageAccount.step` (the body of the
`for _ in range(12)` loop, guard included: once balance or months hit zero the
remaining passes change nothing, exactly like the source's `break`). -/
def MortgageAccount.month (monthly_rate : ℚ) (m : MortgageAccount) : MortgageAccount :=
  if m.balance ≤ 0 ∨ m.months_remaining ≤ 0 then m
  else
    let interest := m.balance * monthly_rate
    let payment := min m.monthly_payment (m.balance + interest)
    let principal := max 0 (payment - interest)
    { m with interest_paid := m.interest_paid + interest
             principal_paid := m.principal_paid + principal
             payment_made := m.payment_made + payment
             balance := max 0 (m.balance + interest - payment)
             months_remaining := m.months_remaining - 1 }

/-- `MortgageAccount.step` (mortgage.py lines 19-43): reset counters, then 12
monthly amortization sub-steps. -/
def MortgageAccount.step (m : MortgageAccount) : MortgageAccount :=
  let m := { m with interest_paid := 0, principal_paid := 0, payment_made := 0 }
  if m.balance ≤ 0 ∨ m.months_remaining ≤ 0 then
    { m with balance := max 0 m.balance, months_remaining := max 0 m.months_remaining }
  else
    let monthly_rate := m.annual_interest_rate / 12
    (List.range 12).foldl (fun acc _ => MortgageAccount.month monthly_rate acc) m

/-! ## Scenario, returns tensor and the reference engine (engine.py) -/

/-- `SimulationAssumptions` (engine.py lines 26-34) with its defaults. -/
structure SimulationAssumptions where
  inflation_rate : ℚ := 1/50
  isa_annual_limit : ℚ := 20000
  state_pension_annual : ℚ := 11500
  cgt_annual_allowance : ℚ := 3000
  cgt_rate : ℚ := 1/10
  emergency_fund_months : ℚ := 6
  pension_access_age : ℤ := 55
deriving DecidableEq

/-- The three attributes the engines read off `scenario.mortgage`. -/
structure MortgageInput where
  balance : ℚ
  annual_interest_rate : ℚ
  monthly_payment : ℚ
deriving DecidableEq

/-- `SimulationScenario` (engine.py lines 37-67); the person-keyed dicts become
insertion-ordered association lists. -/
structure SimulationScenario where
  start_year : ℤ
  end_year : ℤ
  people : List PersonEntity
  salary_by_person : List (String × List SalaryIncome)
  pension_by_person : List (String × PensionPot)
  assets : List AssetAccount
  mortgage : Option MortgageInput
  expenses : List ExpenseItem
  rental_incomes : List RentalIncome := []
  gift_incomes : List GiftIncome := []
  annual_spend_target : ℚ := 0
  pension_withdrawal_priority : ℤ := 100
  assumptions : SimulationAssumptions := {}

/-- `ReturnsMatrix` (returns_cache.py): shapes made explicit, the two 3D
tensors as index functions (iteration, year index, asset/pension index). -/
structure ReturnsMatrix where
  nIter : ℕ
  nYears : ℕ
  nAssets : ℕ
  years : List ℤ
  assetRet : ℕ → ℕ → ℕ → ℚ
  pensionKeys : List String
  pensionRet : ℕ → ℕ → ℕ → ℚ

/-- Errors raised by the engines. -/
inductive EngineErr where
  | yearSpanMismatch
  | assetAxisMismatch
  | typeErrorMissingMonthsRemaining
deriving DecidableEq

/-- Python keyword-call semantics of the `MortgageAccount` dataclass
constructor: `months_remaining` has no default, so a call that does not supply
it (`optMonths = none`) raises `TypeError`. Both engine clone sites
(engine.py lines 236-241 and 630-636) and the API layer pass only balance,
rate and payment. -/
def mortgageInit (balance annual_interest_rate monthly_payment : ℚ)
    (optMonths : Option ℤ) : Except EngineErr MortgageAccount :=
  match optMonths with
  | none => Except.error EngineErr.typeErrorMissingMonthsRemaining
  | some m =>
    Except.ok { balance := balance, annual_interest_rate := annual_interest_rate
                monthly_payment := monthly_payment, months_remaining := m }

/-- The per-run asset clone (engine.py lines 594-607): fresh `AssetAccount`
with the per-year counters at their defaults. -/
def cloneAsset (a : AssetAccount) : AssetAccount :=
  { name := a.name, asset_type := a.asset_type
    withdrawal_priority := a.withdrawal_priority, balance := a.balance
    annual_contribution := a.annual_contribution, growth_rate_mean := a.growth_rate_mean
    growth_rate_std := a.growth_rate_std
    contributions_end_at_retirement := a.contributions_end_at_retirement
    cost_basis := a.cost_basis }

/-- The synthetic cash asset appended when the scenario has none
(engine.py lines 218-231). -/
def syntheticCashAsset : AssetAccount :=
  { name := "Cash", asset_type := "CASH", withdrawal_priority := 0, balance := 0
    annual_contribution := 0, growth_rate_mean := 0, growth_rate_std := 0
    contributions_end_at_retirement := false, cost_basis := 0 }

/-- The engine's working asset list: clones plus the synthetic cash asset when
no asset of type CASH exists. -/
def engineAssets (sc : SimulationScenario) : List AssetAccount :=
  let cloned := sc.assets.map cloneAsset
  if cloned.any (fun a => a.asset_type == "CASH") then cloned
  else cloned ++ [syntheticCashAsset]

/-- One entry of the reference engine's precomputed withdrawal order:
`asset_idx = none` is the synthetic pension slot. -/
structure WithdrawalEntry where
  priority : ℤ
  sort_name : String
  asset_idx : Option ℕ
deriving DecidableEq

/-- Sort key `(-priority, name)` of engine.py line 650, as a boolean `≤`. -/
def refWithdrawalLe (x y : WithdrawalEntry) : Bool :=
  if x.priority = y.priority then decide (x.sort_name ≤ y.sort_name)
  else decide (y.priority < x.priority)

/-- The reference engine's withdrawal order (engine.py lines 644-650):
non-cash assets with lowercased names, plus the pension slot named
"pension", stably sorted by (priority descending, name ascending). -/
def refWithdrawalOrder (assets : List AssetAccount) (pensionPriority : ℤ) :
    List WithdrawalEntry :=
  let items := (assets.enum.filter (fun ia => !(ia.2.asset_type == "CASH"))).map
    (fun ia => WithdrawalEntry.mk ia.2.withdrawal_priority (pyLower ia.2.name) (some ia.1))
  pySort refWithdrawalLe
    (items ++ [{ priority := pensionPriority, sort_name := "pension", asset_idx := none }])

/-- Update the value stored under the first occurrence of key `k` (Python dict
item assignment on an existing key). Missing key: no-op. -/
def updateLookup (k : String) (f : β → β) : List (String × β) → List (String × β)
  | [] => []
  | (k2, v) :: rest =>
    if k2 == k then (k2, f v) :: rest else (k2, v) :: updateLookup k f rest

/-- In-place element update at an index (no-op when out of range; the engines
only use valid indices). -/
def modifyIdx (f : α → α) (i : ℕ) (l : List α) : List α :=
  match l.get? i with
  | some x => l.set i (f x)
  | none => l

/-- Balance of the asset at index `i` (0 when out of range). -/
def assetBalAt (assets : List AssetAccount) (i : ℕ) : ℚ :=
  ((assets.get? i).map AssetAccount.balance).getD 0

/-- `is_all_retired` in the reference engine (engine.py line 666):
`all(person.is_retired_in_year(...) for person in people) if people else False`.
Note it quantifies over every person, children included. -/
def refAllRetired (people : List PersonEntity) (year : ℤ) : Bool :=
  if people.isEmpty then false
  else people.all (fun p => p.isRetiredInYear year)

/-- One person's salary list processed in order (engine.py lines 677-687):
step each salary, read pension contributions off the post-step `gross_annual`,
pay them into the person's pot. Returns the new salary list, new pot and the
(gross, employee, employer) accumulators. -/
def refSalaryInner (year : ℤ) (salaries : List SalaryIncome) (pension : Option PensionPot) :
    List SalaryIncome × Option PensionPot × ℚ × ℚ × ℚ :=
  salaries.foldl
    (fun acc s =>
      let s2 := s.step year
      let employee_contrib := s2.gross_annual * s2.employee_pension_pct
      let employer_contrib := s2.gross_annual * s2.employer_pension_pct
      let pen2 := acc.2.1.map (fun p => p.contribute (employee_contrib + employer_contrib))
      (acc.1 ++ [s2], pen2, acc.2.2.1 + s2.salary_gross_out,
        acc.2.2.2.1 + employee_contrib, acc.2.2.2.2 + employer_contrib))
    (([] : List SalaryIncome), pension, (0 : ℚ), (0 : ℚ), (0 : ℚ))

/-- The salary pass over people (engine.py lines 668-687): retired people and
people without salaries are skipped. -/
def refSalaryPass (year : ℤ) (people : List PersonEntity)
    (salaries : List (String × List SalaryIncome)) (pensions : List (String × PensionPot)) :
    List (String × List SalaryIncome) × List (String × PensionPot) × ℚ × ℚ × ℚ :=
  people.foldl
    (fun acc person =>
      if person.isRetiredInYear year then acc
      else
        match List.lookup person.key acc.1 with
        | none => acc
        | some ss =>
          if ss.isEmpty then acc
          else
            let pen := List.lookup person.key acc.2.1
            let r := refSalaryInner year ss pen
            let sal2 := updateLookup person.key (fun _ => r.1) acc.1
            let pens2 := match r.2.1 with
              | none => acc.2.1
              | some p2 => updateLookup person.key (fun _ => p2) acc.2.1
            (sal2, pens2, acc.2.2.1 + r.2.2.1, acc.2.2.2.1 + r.2.2.2.1,
              acc.2.2.2.2 + r.2.2.2.2))
    (salaries, pensions, (0 : ℚ), (0 : ℚ), (0 : ℚ))

/-- Step every rental income, collecting the total gross. -/
def stepRentals (year : ℤ) (rs : List RentalIncome) : List RentalIncome × ℚ :=
  rs.foldl (fun acc r =>
      let r2 := r.step year
      (acc.1 ++ [r2], acc.2 + r2.income_gross_out)) ([], 0)

/-- Step every gift income, collecting the total. -/
def stepGifts (year : ℤ) (gs : List GiftIncome) : List GiftIncome × ℚ :=
  gs.foldl (fun acc g =>
      let g2 := g.step year
      (acc.1 ++ [g2], acc.2 + g2.income_gross_out)) ([], 0)

/-- Step every expense, collecting this year's total spend. -/
def stepExpenses (inflation_rate : ℚ) (es : List ExpenseItem) : List ExpenseItem × ℚ :=
  es.foldl (fun acc e =>
      let e2 := e.step inflation_rate
      (acc.1 ++ [e2], acc.2 + e2.annual_spend_out)) ([], 0)

/-- Cached pension returns applied per key (engine.py lines 714-720). -/
def assignPensionReturns (ret : ReturnsMatrix) (it yIdx : ℕ)
    (pens : List (String × PensionPot)) : List (String × PensionPot) :=
  ret.pensionKeys.enum.foldl
    (fun acc kp =>
      updateLookup kp.2 (fun p => { p with annual_return := ret.pensionRet it yIdx kp.1 }) acc)
    pens

/-- State pension income (engine.py lines 727-730). -/
def statePensionIncomeFor (people : List PersonEntity) (year : ℤ) (amount : ℚ) : ℚ :=
  people.foldl (fun acc p =>
    if p.isStatePensionEligibleInYear year then acc + amount else acc) 0

/-- Accumulator of the emergency-fund withdrawal pass. -/
structure RefWdState where
  assets : List AssetAccount
  pensions : List (String × PensionPot)
  shortfall : ℚ
  cgt_rem : ℚ
  cgt_paid : ℚ
  pen_net : ℚ
  pen_tax : ℚ

/-- One entry of the withdrawal pass (engine.py lines 760-819). -/
def refWithdrawStep (sc : SimulationScenario) (people : List PersonEntity) (year : ℤ)
    (state_pension_income : ℚ) (cashIdx : ℕ) (acc : RefWdState) (entry : WithdrawalEntry) :
    RefWdState :=
  if acc.shortfall ≤ 0 then acc
  else
    match entry.asset_idx with
    | some idx =>
      match acc.assets.get? idx with
      | none => acc
      | some asset =>
        if asset.asset_type == "GIA" then
          let res := calculateGiaWithdrawal acc.shortfall asset.balance asset.cost_basis
            acc.cgt_rem sc.assumptions.cgt_rate
          { acc with
              assets := modifyIdx (fun c => { c with balance := c.balance + res.net_withdrawal })
                cashIdx (modifyIdx (fun a => a.withdraw res.gross_withdrawal) idx acc.assets)
              cgt_rem := res.cgt_allowance_remaining
              cgt_paid := acc.cgt_paid + res.tax_paid
              shortfall := acc.shortfall - res.net_withdrawal }
        else
          -- ISA and every unknown type: tax-free withdrawal
          let res := calculateTaxFreeWithdrawal acc.shortfall asset.balance
          { acc with
              assets := modifyIdx (fun c => { c with balance := c.balance + res.net_withdrawal })
                cashIdx (modifyIdx (fun a => a.withdraw res.gross_withdrawal) idx acc.assets)
              shortfall := acc.shortfall - res.net_withdrawal }
    | none =>
      -- synthetic pension slot, pooled over pension-access-eligible people
      let elig : String → Bool := fun k =>
        people.any (fun p => p.key == k &&
          p.canAccessPensionInYear year sc.assumptions.pension_access_age)
      let current_pension_balance :=
        ((acc.pensions.filter (fun kp => elig kp.1)).map (fun kp => kp.2.balance)).sum
      if 0 < current_pension_balance then
        let dd := calculatePensionDrawdown acc.shortfall state_pension_income
          current_pension_balance
        let pens2 :=
          if 0 < dd.gross_withdrawal then
            acc.pensions.map (fun kp =>
              if elig kp.1 then
                (kp.1, kp.2.withdraw (dd.gross_withdrawal * (kp.2.balance / current_pension_balance)))
              else kp)
          else acc.pensions
        { acc with
            pensions := pens2
            pen_net := acc.pen_net + dd.net_income
            pen_tax := acc.pen_tax + dd.tax_paid
            assets := modifyIdx (fun c => { c with balance := c.balance + dd.net_income })
              cashIdx acc.assets
            shortfall := acc.shortfall - dd.net_income }
      else acc

/-- Sort key `(-annual_contribution, name.lower())` used for the ISA/GIA
investment passes (engine.py lines 830 and 843). -/
def investContribLe (x y : ℕ × AssetAccount) : Bool :=
  if x.2.annual_contribution = y.2.annual_contribution then
    decide (pyLower x.2.name ≤ pyLower y.2.name)
  else decide (y.2.annual_contribution < x.2.annual_contribution)

/-- The ISA leg of the investment pass (engine.py lines 828-840). The fold
state is (assets, investable, isa_remaining). -/
def refInvestIsa (cashIdx : ℕ) (idxs : List ℕ) (st : List AssetAccount × ℚ × ℚ) :
    List AssetAccount × ℚ × ℚ :=
  idxs.foldl
    (fun acc idx =>
      if acc.2.1 ≤ 0 ∨ acc.2.2 ≤ 0 then acc
      else
        match acc.1.get? idx with
        | none => acc
        | some isa =>
          let cap := if 0 < isa.annual_contribution then isa.annual_contribution else acc.2.2
          let amount := min acc.2.1 (min acc.2.2 cap)
          if amount ≤ 0 then acc
          else
            (modifyIdx (fun c => { c with balance := c.balance - amount }) cashIdx
              (acc.1.set idx (isa.deposit amount)), acc.2.1 - amount, acc.2.2 - amount))
    st

/-- The GIA leg of the investment pass (engine.py lines 842-852). The fold
state is (assets, investable). -/
def refInvestGia (cashIdx : ℕ) (idxs : List ℕ) (st : List AssetAccount × ℚ) :
    List AssetAccount × ℚ :=
  idxs.foldl
    (fun acc idx =>
      if acc.2 ≤ 0 then acc
      else
        match acc.1.get? idx with
        | none => acc
        | some gia =>
          let cap := if 0 < gia.annual_contribution then gia.annual_contribution else acc.2
          let amount := min acc.2 cap
          if amount ≤ 0 then acc
          else
            (modifyIdx (fun c => { c with balance := c.balance - amount }) cashIdx
              (acc.1.set idx (gia.deposit amount)), acc.2 - amount))
    st

/-- One row of the dense output matrices: the 24 named per-year fields
(booleans stored as 0/1, as in the source). -/
structure YearOut where
  net_worth : ℚ
  salary_gross : ℚ
  salary_net : ℚ
  rental_income : ℚ
  gift_income : ℚ
  pension_income : ℚ
  state_pension_income : ℚ
  investment_returns : ℚ
  total_income : ℚ
  total_expenses : ℚ
  mortgage_payment : ℚ
  pension_contributions : ℚ
  fun_fund : ℚ
  income_tax_paid : ℚ
  ni_paid : ℚ
  total_tax : ℚ
  isa_balance : ℚ
  pension_balance : ℚ
  cash_balance : ℚ
  total_assets : ℚ
  mortgage_balance : ℚ
  total_liabilities : ℚ
  mortgage_paid_off : ℚ
  is_depleted : ℚ
deriving DecidableEq

/-- Mutable per-iteration state of the reference engine. -/
structure RefState where
  salaries : List (String × List SalaryIncome)
  pensions : List (String × PensionPot)
  rentals : List RentalIncome
  gifts : List GiftIncome
  assets : List AssetAccount
  mortgage : Option MortgageAccount
  expenses : List ExpenseItem
  statePensionAnnual : ℚ

/-- One simulated year of `_simulate_single_run_to_matrices`
(engine.py lines 655-906). -/
def refYearStep (sc : SimulationScenario) (ret : ReturnsMatrix) (it : ℕ) (cashIdx : ℕ)
    (order : List WithdrawalEntry) (people : List PersonEntity) (yIdx : ℕ) (year : ℤ)
    (st : RefState) : RefState × YearOut :=
  let assetsB := st.assets.map AssetAccount.beginYear
  let pensB := st.pensions.map (fun kp => (kp.1, kp.2.beginYear))
  let is_all_retired := refAllRetired people year
  let sal := refSalaryPass year people st.salaries pensB
  let salaries2 := sal.1
  let pens2 := sal.2.1
  let salary_gross_total := sal.2.2.1
  let employee_pension_total := sal.2.2.2.1
  let employer_pension_total := sal.2.2.2.2
  let rents := stepRentals year st.rentals
  let rental_income_gross := rents.2
  let gifts := stepGifts year st.gifts
  let gift_income_total := gifts.2
  let tb := calculateForSalary salary_gross_total employee_pension_total
  let rental_income_tax := incomeTaxOnAdditionalIncome
    (salary_gross_total - employee_pension_total) rental_income_gross
  let salary_net := salary_gross_total - tb.total_tax - employee_pension_total
  let rental_income_net := rental_income_gross - rental_income_tax
  let pens3 := assignPensionReturns ret it yIdx pens2
  let mort2 := st.mortgage.map MortgageAccount.step
  let exps := stepExpenses sc.assumptions.inflation_rate st.expenses
  let expense_total := exps.2
  let state_pension_income := statePensionIncomeFor people year st.statePensionAnnual
  let spa2 := st.statePensionAnnual * (1 + sc.assumptions.inflation_rate)
  let mortgage_payment := (mort2.map MortgageAccount.payment_made).getD 0
  let extra_retirement_spend := if is_all_retired then sc.annual_spend_target else 0
  let total_outflows := expense_total + mortgage_payment + extra_retirement_spend
  let monthly_outflows := if 0 < total_outflows then total_outflows / 12 else 0
  let emergency_target := monthly_outflows * sc.assumptions.emergency_fund_months
  let assets1 := modifyIdx
    (fun c => { c with balance := c.balance +
      (salary_net + rental_income_net + gift_income_total + state_pension_income) -
      total_outflows }) cashIdx assetsB
  let cashBal := assetBalAt assets1 cashIdx
  let wd :=
    if cashBal < emergency_target then
      let w := order.foldl (refWithdrawStep sc people year state_pension_income cashIdx)
        { assets := assets1, pensions := pens3, shortfall := emergency_target - cashBal
          cgt_rem := sc.assumptions.cgt_annual_allowance, cgt_paid := 0
          pen_net := 0, pen_tax := 0 }
      -- clamp cash at 0 if the shortfall could not be covered
      if assetBalAt w.assets cashIdx < 0 then
        { w with assets := modifyIdx (fun c => { c with balance := 0 }) cashIdx w.assets }
      else w
    else
      { assets := assets1, pensions := pens3, shortfall := 0
        cgt_rem := sc.assumptions.cgt_annual_allowance, cgt_paid := 0
        pen_net := 0, pen_tax := 0 }
  let pension_income_net := wd.pen_net
  let pension_income_tax := wd.pen_tax
  let cgt_paid := wd.cgt_paid
  let investable := max 0 (assetBalAt wd.assets cashIdx - emergency_target)
  let assets3 :=
    if 0 < investable then
      let isaIdxs := (pySort investContribLe
        (wd.assets.enum.filter (fun ia => ia.2.asset_type == "ISA"))).map (fun ia => ia.1)
      let afterIsa := refInvestIsa cashIdx isaIdxs
        (wd.assets, investable, sc.assumptions.isa_annual_limit)
      let giaIdxs := (pySort investContribLe
        (afterIsa.1.enum.filter (fun ia => ia.2.asset_type == "GIA"))).map (fun ia => ia.1)
      (refInvestGia cashIdx giaIdxs (afterIsa.1, afterIsa.2.1)).1
    else wd.assets
  let assets4 := assets3.enum.map (fun ia => ia.2.applyGrowth (ret.assetRet it yIdx ia.1))
  let pens4 := wd.pensions.map (fun kp => (kp.1, kp.2.step))
  let pension_balance := (pens4.map (fun kp => kp.2.balance)).sum
  let mortgage_balance := (mort2.map MortgageAccount.balance).getD 0
  let isa_balance := ((assets4.filter (fun a => a.asset_type == "ISA")).map
    AssetAccount.balance).sum
  let cash_balance := ((assets4.filter (fun a => a.asset_type == "CASH")).map
    AssetAccount.balance).sum
  let total_assets := (assets4.map AssetAccount.balance).sum + pension_balance
  let total_liabilities := mortgage_balance
  let net_worth := total_assets - total_liabilities
  let pension_investment_return := (pens4.map (fun kp => kp.2.inv_return)).sum
  let investment_returns := (assets4.map AssetAccount.inv_return).sum +
    pension_investment_return
  let total_income := salary_net + rental_income_net + gift_income_total +
    pension_income_net + state_pension_income
  let income_tax_paid := tb.income_tax + rental_income_tax + pension_income_tax + cgt_paid
  let ni_paid := tb.national_insurance
  let total_tax := income_tax_paid + ni_paid
  let total_expenses := expense_total + mortgage_payment + extra_retirement_spend
  let pension_contributions := employee_pension_total + employer_pension_total
  let is_depleted := total_assets ≤ 0
  let mortgage_paid_off := st.mortgage.isNone ∨ mortgage_balance ≤ 0
  let out : YearOut :=
    { net_worth := net_worth, salary_gross := salary_gross_total, salary_net := salary_net
      rental_income := rental_income_net, gift_income := gift_income_total
      pension_income := pension_income_net, state_pension_income := state_pension_income
      investment_returns := investment_returns, total_income := total_income
      total_expenses := total_expenses, mortgage_payment := mortgage_payment
      pension_contributions := pension_contributions, fun_fund := extra_retirement_spend
      income_tax_paid := income_tax_paid, ni_paid := ni_paid, total_tax := total_tax
      isa_balance := isa_balance, pension_balance := pension_balance
      cash_balance := cash_balance, total_assets := total_assets
      mortgage_balance := mortgage_balance, total_liabilities := total_liabilities
      mortgage_paid_off := if mortgage_paid_off then 1 else 0
      is_depleted := if is_depleted then 1 else 0 }
  ({ salaries := salaries2, pensions := pens4, rentals := rents.1, gifts := gifts.1
     assets := assets4, mortgage := mort2, expenses := exps.1
     statePensionAnnual := spa2 }, out)

/-- `range(start_year, end_year + 1)`. -/
def scenarioYears (sc : SimulationScenario) : List ℤ :=
  (List.range (sc.end_year + 1 - sc.start_year).toNat).map (fun i => sc.start_year + i)

/-- The year loop of one iteration. -/
def refRunYears (sc : SimulationScenario) (ret : ReturnsMatrix) (it : ℕ) (cashIdx : ℕ)
    (order : List WithdrawalEntry) (people : List PersonEntity) :
    List (ℕ × ℤ) → RefState → List YearOut
  | [], _ => []
  | (yIdx, year) :: rest, st =>
    let r := refYearStep sc ret it cashIdx order people yIdx year st
    r.2 :: refRunYears sc ret it cashIdx order people rest r.1

/-- `_simulate_single_run_to_matrices` (engine.py lines 577-906) for one
iteration: clone state, ensure a cash asset, check the tensor's asset axis,
clone the mortgage (which raises: `months_remaining` is not supplied), then
run the years. -/
def refSimulateSingleRun (sc : SimulationScenario) (ret : ReturnsMatrix) (it : ℕ) :
    Except EngineErr (List YearOut) :=
  let assets0 := engineAssets sc
  let cashIdx := assets0.findIdx (fun a => a.asset_type == "CASH")
  if ret.nAssets ≠ assets0.length then Except.error EngineErr.assetAxisMismatch
  else
    let runFrom : Option MortgageAccount → List YearOut := fun mort =>
      let order := refWithdrawalOrder assets0 sc.pension_withdrawal_priority
      refRunYears sc ret it cashIdx order sc.people (scenarioYears sc).enum
        { salaries := sc.salary_by_person, pensions := sc.pension_by_person
          rentals := sc.rental_incomes, gifts := sc.gift_incomes, assets := assets0
          mortgage := mort, expenses := sc.expenses
          statePensionAnnual := sc.assumptions.state_pension_annual }
    match sc.mortgage with
    | none => Except.ok (runFrom none)
    | some m =>
      match mortgageInit m.balance m.annual_interest_rate m.monthly_payment none with
      | Except.error e => Except.error e
      | Except.ok mm => Except.ok (runFrom (some mm))

/-- The iteration loop of `run_with_cached_returns`: the first iteration that
raises aborts the run. -/
def refIterLoop (sc : SimulationScenario) (ret : ReturnsMatrix) :
    List ℕ → Except EngineErr (List (List YearOut))
  | [] => Except.ok []
  | it :: rest =>
    match refSimulateSingleRun sc ret it with
    | Except.error e => Except.error e
    | Except.ok rows =>
      match refIterLoop sc ret rest with
      | Except.error e => Except.error e
      | Except.ok ms => Except.ok (rows :: ms)

/-- `run_with_cached_returns` (engine.py lines 517-567): year-span check, then
one matrix row block per iteration. -/
def runWithCachedReturns (sc : SimulationScenario) (ret : ReturnsMatrix) :
    Except EngineErr (List (List YearOut)) :=
  let years := scenarioYears sc
  if years.length ≠ ret.nYears then Except.error EngineErr.yearSpanMismatch
  else refIterLoop sc ret (List.range ret.nIter)

/-! ## Fast engine (engine_fast.py, array_scenario.py, returns_cache.py) -/

/-- `_calculate_income_tax` in engine_fast.py (lines 229-257), written against
the module-level UK 2024/25 constants. Kept as a separate definition because
the fast engine deliberately duplicates the tax logic. -/
def fastCalculateIncomeTax (taxable_income : ℚ) : ℚ :=
  if taxable_income ≤ 0 then 0
  else
    let remaining := taxable_income
    let allowance := min remaining (12570 : ℚ)
    let remaining := remaining - allowance
    if remaining ≤ 0 then 0
    else
      let basic_band := max 0 ((50270 : ℚ) - 12570)
      let basic_amount := min remaining basic_band
      let tax := basic_amount * (1/5)
      let remaining := remaining - basic_amount
      if remaining ≤ 0 then tax
      else
        let higher_band := max 0 ((125140 : ℚ) - 50270)
        let higher_amount := min remaining higher_band
        let tax := tax + higher_amount * (2/5)
        let remaining := remaining - higher_amount
        if remaining ≤ 0 then tax
        else tax + remaining * (9/20)

/-- `_calculate_ni` in engine_fast.py (lines 259-265). -/
def fastCalculateNi (gross_annual : ℚ) : ℚ :=
  if gross_annual ≤ 12570 then 0
  else
    let main_amount := min gross_annual (50270 : ℚ) - 12570
    let upper_amount := max 0 (gross_annual - 50270)
    main_amount * (2/25) + upper_amount * (1/50)

/-- Net/tax for a candidate gross inside `_calculate_pension_drawdown`
(engine_fast.py lines 286-291): returns (pension_tax, net). -/
def fastDrawdownEval (other_taxable gross : ℚ) : ℚ × ℚ :=
  let taxable := gross * (3/4)
  let total_tax := fastCalculateIncomeTax (other_taxable + taxable)
  let base_tax := fastCalculateIncomeTax other_taxable
  let pension_tax := total_tax - base_tax
  (pension_tax, gross - pension_tax)

/-- The 20-pass bisection loop of `_calculate_pension_drawdown` (engine_fast.py
lines 282-298). `fuel` is the number of remaining passes (started at 20); the
loop keeps the variables of its last pass when it ends without converging.
Returns (gross, pension_tax, net). -/
def fastDrawdownLoop (target other : ℚ) : ℕ → ℚ → ℚ → ℚ × ℚ × ℚ
  | 0, low, high =>
    -- not reached from the entry point (fuel starts positive)
    let gross := (low + high) / 2
    let e := fastDrawdownEval other gross
    (gross, e.1, e.2)
  | fuel + 1, low, high =>
    let gross := (low + high) / 2
    let e := fastDrawdownEval other gross
    if |e.2 - target| < 1/100 then (gross, e.1, e.2)
    else if fuel = 0 then (gross, e.1, e.2)
    else if e.2 < target then fastDrawdownLoop target other fuel gross high
    else fastDrawdownLoop target other fuel low gross

/-- `_calculate_pension_drawdown` (engine_fast.py lines 267-308): bisection on
[0, min(balance, 2·target)], then cap at the balance.
Returns (gross_withdrawal, tax_paid, net_income). -/
def fastCalculatePensionDrawdown (target_net other_taxable pension_balance : ℚ) :
    ℚ × ℚ × ℚ :=
  if target_net ≤ 0 ∨ pension_balance ≤ 0 then (0, 0, 0)
  else
    let r := fastDrawdownLoop target_net other_taxable 20 0
      (min pension_balance (target_net * 2))
    if pension_balance < r.1 then
      let e := fastDrawdownEval other_taxable pension_balance
      (pension_balance, e.1, e.2)
    else r

/-- One month of `_step_mortgage` (engine_fast.py lines 323-331); state is
(balance, payment_total). -/
def fastMortgageMonth (monthly_rate monthly_payment : ℚ) (st : ℚ × ℚ) : ℚ × ℚ :=
  if st.1 ≤ 0 then st
  else
    let interest := st.1 * monthly_rate
    let payment := min monthly_payment (st.1 + interest)
    (max 0 (st.1 + interest - payment), st.2 + payment)

/-- `_step_mortgage` (engine_fast.py lines 310-332): 12 monthly sub-steps, no
months counter. Returns (new_balance, payment_made). -/
def fastStepMortgage (balance annual_rate monthly_payment : ℚ) : ℚ × ℚ :=
  if balance ≤ 0 then (0, 0)
  else
    (List.range 12).foldl
      (fun acc _ => fastMortgageMonth (annual_rate / 12) monthly_payment acc) (balance, 0)

/-- `_asset_type_code` (array_scenario.py lines 255-263 and its twin in
returns_cache.py): CASH 0, ISA 1, GIA 2, other 3, case-insensitively. -/
def assetTypeCode (asset_type : String) : ℕ :=
  let u := pyUpper asset_type
  if u == "CASH" then 0 else if u == "ISA" then 1 else if u == "GIA" then 2 else 3

/-- The `CashStub` object appended by `_scenario_assets_for_returns`
(returns_cache.py lines 103-124) and `_scenario_assets_for_arrays`
(array_scenario.py lines 266-284), materialised together with the values the
builders' `getattr(_, default)` reads yield for the attributes the stub does
not define (growth mean/std 0, contribution 0, flag False). -/
def cashStub : AssetAccount :=
  { name := "Cash", asset_type := "CASH", withdrawal_priority := 0, balance := 0
    annual_contribution := 0, growth_rate_mean := 0, growth_rate_std := 0
    contributions_end_at_retirement := false, cost_basis := 0 }

/-- `_scenario_assets_for_returns`: the original assets, plus the stub when no
asset of type CASH exists. -/
def scenarioAssetsForReturns (sc : SimulationScenario) : List AssetAccount :=
  if sc.assets.any (fun a => a.asset_type == "CASH") then sc.assets
  else sc.assets ++ [cashStub]

/-- `_scenario_assets_for_arrays`: same shape rule as the returns builder. -/
def scenarioAssetsForArrays (sc : SimulationScenario) : List AssetAccount :=
  if sc.assets.any (fun a => a.asset_type == "CASH") then sc.assets
  else sc.assets ++ [cashStub]

/-- The year axis produced by `generate_returns_matrix`
(returns_cache.py line 135): `np.arange(start_year, end_year + 1)`. -/
def generatedReturnsYears (sc : SimulationScenario) : List ℤ := scenarioYears sc

/-- The asset-axis length of the generated tensor (returns_cache.py lines
141-166: one Normal column per entry of `_scenario_assets_for_returns`). -/
def generatedReturnsNumAssets (sc : SimulationScenario) : ℕ :=
  (scenarioAssetsForReturns sc).length

/-- `pension_keys = sorted(scenario.pension_by_person.keys())`
(returns_cache.py line 169). -/
def generatedReturnsPensionKeys (sc : SimulationScenario) : List String :=
  pySort (fun a b => decide (a ≤ b)) (sc.pension_by_person.map Prod.fst)

/-- `next((i for i, p in enumerate(people) if p.key == key), -1)`
(array_scenario.py line 182). -/
def personIdxForKey (people : List PersonEntity) (k : String) : ℤ :=
  match people.findIdx? (fun p => p.key == k) with
  | some i => (i : ℤ)
  | none => -1

/-- `ArrayScenario` (array_scenario.py lines 22-73); `ArrayAssumptions` is a
field-for-field copy of `SimulationAssumptions` and is reused here. -/
structure ArrayScenario where
  years : List ℤ
  people_birth_years : List ℤ
  people_retirement_ages : List ℤ
  people_state_pension_ages : List ℤ
  people_is_child : List ℕ
  people_annual_cost : List ℚ
  people_leaves_household_age : List ℤ
  salary_person_idx : List ℤ
  salary_gross_annual : List ℚ
  salary_growth_rate : List ℚ
  salary_employee_pct : List ℚ
  salary_employer_pct : List ℚ
  salary_start_year : List ℤ
  salary_end_year : List ℤ
  rental_gross_annual : List ℚ
  rental_growth_rate : List ℚ
  rental_start_year : List ℤ
  rental_end_year : List ℤ
  gift_gross_annual : List ℚ
  gift_growth_rate : List ℚ
  gift_start_year : List ℤ
  gift_end_year : List ℤ
  asset_types : List ℕ
  asset_withdrawal_priority : List ℤ
  asset_balances : List ℚ
  asset_cost_bases : List ℚ
  asset_annual_contrib : List ℚ
  asset_contrib_end_retirement : List Bool
  asset_names : List String
  pension_person_idx : List ℤ
  pension_balances : List ℚ
  pension_keys : List String
  has_mortgage : Bool
  mortgage_balance : ℚ
  mortgage_annual_interest_rate : ℚ
  mortgage_monthly_payment : ℚ
  expense_annual_amount : List ℚ
  expense_is_inflation_linked : List Bool
  annual_spend_target : ℚ
  pension_withdrawal_priority : ℤ
  assumptions : SimulationAssumptions

/-- `build_array_scenario` (array_scenario.py lines 76-252). Retirement and
state-pension ages use the 999 sentinel for `None`; salary/rental/gift date
bounds use -1. A pension key of the returns matrix that is missing from the
scenario raises `KeyError` in the source; it is modelled as balance 0 and is
exercised by no theorem below. -/
def buildArrayScenario (sc : SimulationScenario) (ret : ReturnsMatrix) : ArrayScenario :=
  let salary_rows :=
    (sc.people.enum.map (fun ip =>
      ((List.lookup ip.2.key sc.salary_by_person).getD []).map (fun s => ((ip.1 : ℤ), s)))).flatten
  let arrAssets := scenarioAssetsForArrays sc
  { years := ret.years
    people_birth_years := sc.people.map (fun p => p.birth_year)
    people_retirement_ages := sc.people.map (fun p => p.planned_retirement_age.getD 999)
    people_state_pension_ages := sc.people.map (fun p => p.state_pension_age.getD 999)
    people_is_child := sc.people.map (fun p => if p.is_child then 1 else 0)
    people_annual_cost := sc.people.map (fun p => p.annual_cost)
    people_leaves_household_age := sc.people.map (fun p => p.leaves_household_age)
    salary_person_idx := salary_rows.map (fun r => r.1)
    salary_gross_annual := salary_rows.map (fun r => r.2.gross_annual)
    salary_growth_rate := salary_rows.map (fun r => r.2.annual_growth_rate)
    salary_employee_pct := salary_rows.map (fun r => r.2.employee_pension_pct)
    salary_employer_pct := salary_rows.map (fun r => r.2.employer_pension_pct)
    salary_start_year := salary_rows.map (fun r => r.2.start_year.getD (-1))
    salary_end_year := salary_rows.map (fun r => r.2.end_year.getD (-1))
    rental_gross_annual := sc.rental_incomes.map (fun r => r.gross_annual)
    rental_growth_rate := sc.rental_incomes.map (fun r => r.annual_growth_rate)
    rental_start_year := sc.rental_incomes.map (fun r => r.start_year.getD (-1))
    rental_end_year := sc.rental_incomes.map (fun r => r.end_year.getD (-1))
    gift_gross_annual := sc.gift_incomes.map (fun g => g.gross_annual)
    gift_growth_rate := sc.gift_incomes.map (fun g => g.annual_growth_rate)
    gift_start_year := sc.gift_incomes.map (fun g => g.start_year.getD (-1))
    gift_end_year := sc.gift_incomes.map (fun g => g.end_year.getD (-1))
    asset_types := arrAssets.map (fun a => assetTypeCode a.asset_type)
    asset_withdrawal_priority := arrAssets.map (fun a => a.withdrawal_priority)
    asset_balances := arrAssets.map (fun a => a.balance)
    asset_cost_bases := arrAssets.map (fun a => a.cost_basis)
    asset_annual_contrib := arrAssets.map (fun a => a.annual_contribution)
    asset_contrib_end_retirement := arrAssets.map (fun a => a.contributions_end_at_retirement)
    asset_names := arrAssets.map (fun a => a.name)
    pension_person_idx := ret.pensionKeys.map (personIdxForKey sc.people)
    pension_balances := ret.pensionKeys.map (fun k =>
      ((List.lookup k sc.pension_by_person).map PensionPot.balance).getD 0)
    pension_keys := ret.pensionKeys
    has_mortgage := sc.mortgage.isSome
    mortgage_balance := (sc.mortgage.map MortgageInput.balance).getD 0
    mortgage_annual_interest_rate := (sc.mortgage.map MortgageInput.annual_interest_rate).getD 0
    mortgage_monthly_payment := (sc.mortgage.map MortgageInput.monthly_payment).getD 0
    expense_annual_amount := sc.expenses.map (fun e => e.annual_amount)
    expense_is_inflation_linked := sc.expenses.map (fun e => e.is_inflation_linked)
    annual_spend_target := sc.annual_spend_target
    pension_withdrawal_priority := sc.pension_withdrawal_priority
    assumptions := sc.assumptions }

/-- Element reads of the kernel's numeric arrays. -/
def listGetQ (l : List ℚ) (i : ℕ) : ℚ := l.getD i 0

def listGetZ (l : List ℤ) (i : ℕ) : ℤ := l.getD i 0

def listGetN (l : List ℕ) (i : ℕ) : ℕ := l.getD i 0

/-- The all-retired/has-adults loop of the kernel (engine_fast.py lines
427-438), on (is_child, birth_year, retirement_age) rows. The boolean carries
`has_adults`; the early `break` on a working-age adult yields `false`. -/
def fastAllRetiredGo (year : ℤ) : List (ℕ × ℤ × ℤ) → Bool → Bool
  | [], hasAdults => hasAdults
  | (isChild, birth, retAge) :: rest, hasAdults =>
    if isChild == 1 then fastAllRetiredGo year rest hasAdults
    else if year - birth < retAge then false
    else fastAllRetiredGo year rest true

/-- `is_all_retired` in the Numba kernel: adults only, `false` when there are
no adults. -/
def fastAllRetired (people : List (ℕ × ℤ × ℤ)) (year : ℤ) : Bool :=
  fastAllRetiredGo year people false

/-- Mutable per-iteration arrays of the kernel (engine_fast.py lines 411-421). -/
structure FastIterState where
  asset_balances : List ℚ
  asset_cost_bases : List ℚ
  pension_balances : List ℚ
  mortgage_balance : ℚ
  salary_gross : List ℚ
  rental_gross : List ℚ
  gift_gross : List ℚ
  expense_amounts : List ℚ
  state_pension : ℚ
  child_costs : List ℚ

/-- State of the kernel's withdrawal loop. -/
structure FastWdState where
  asset_balances : List ℚ
  asset_cost_bases : List ℚ
  pension_balances : List ℚ
  shortfall : ℚ
  cgt_rem : ℚ
  cgt_paid : ℚ
  pen_net : ℚ
  pen_tax : ℚ

/-- One withdrawal source processed by the kernel (engine_fast.py lines
563-644). -/
def fastWithdrawStep (arr : ArrayScenario) (year : ℤ) (state_pension_income : ℚ)
    (cashIdx : ℕ) (nPensions nAssets : ℕ) (wIsPension : List ℕ) (wAssetIdx : List ℤ)
    (acc : FastWdState) (w : ℕ) : FastWdState :=
  if acc.shortfall ≤ 0 then acc
  else if listGetN wIsPension w == 1 then
    let eligible := (List.range nPensions).foldl
      (fun s j =>
        let p_idx := listGetZ arr.pension_person_idx j
        if 0 ≤ p_idx then
          let age := year - listGetZ arr.people_birth_years p_idx.toNat
          if arr.assumptions.pension_access_age ≤ age then
            s + listGetQ acc.pension_balances j
          else s
        else s) 0
    if 0 < eligible then
      let dd := fastCalculatePensionDrawdown acc.shortfall state_pension_income eligible
      let pens2 :=
        if 0 < dd.1 then
          (List.range nPensions).foldl
            (fun pl j =>
              let p_idx := listGetZ arr.pension_person_idx j
              if 0 ≤ p_idx then
                let age := year - listGetZ arr.people_birth_years p_idx.toNat
                if arr.assumptions.pension_access_age ≤ age ∧ 0 < listGetQ pl j then
                  modifyIdx (fun b => b - dd.1 * (b / eligible)) j pl
                else pl
              else pl) acc.pension_balances
        else acc.pension_balances
      { acc with pension_balances := pens2
                 pen_net := acc.pen_net + dd.2.2
                 pen_tax := acc.pen_tax + dd.2.1
                 asset_balances := modifyIdx (fun b => b + dd.2.2) cashIdx acc.asset_balances
                 shortfall := acc.shortfall - dd.2.2 }
    else acc
  else
    let a_idx := listGetZ wAssetIdx w
    if a_idx < 0 ∨ (nAssets : ℤ) ≤ a_idx then acc
    else
      let an := a_idx.toNat
      let balance := listGetQ acc.asset_balances an
      if balance ≤ 0 then acc
      else
        let tcode := listGetN arr.asset_types an
        if tcode == 2 then
          -- GIA: CGT on the gains portion
          let gross := min balance acc.shortfall
          let cost_basis := listGetQ acc.asset_cost_bases an
          let total_gains := max 0 (balance - cost_basis)
          let gainsFrac := if 0 < balance then total_gains / balance else 0
          let gains_realized := gross * gainsFrac
          let allowance_used := min acc.cgt_rem gains_realized
          let taxable_gains := max 0 (gains_realized - allowance_used)
          let tax := taxable_gains * arr.assumptions.cgt_rate
          let net := gross - tax
          let bases2 :=
            if 0 < balance ∧ 0 < cost_basis then
              modifyIdx (fun b => max 0 (b - cost_basis * (gross / balance))) an
                acc.asset_cost_bases
            else acc.asset_cost_bases
          { acc with
              asset_balances := modifyIdx (fun b => b + net) cashIdx
                (modifyIdx (fun b => b - gross) an acc.asset_balances)
              asset_cost_bases := bases2
              cgt_rem := acc.cgt_rem - allowance_used
              cgt_paid := acc.cgt_paid + tax
              shortfall := acc.shortfall - net }
        else
          -- ISA and any other non-cash type: tax-free
          let gross := min balance acc.shortfall
          { acc with
              asset_balances := modifyIdx (fun b => b + gross) cashIdx
                (modifyIdx (fun b => b - gross) an acc.asset_balances)
              shortfall := acc.shortfall - gross }

/-- ISA investment leg of the kernel (engine_fast.py lines 655-668): array
order, no name sorting. State is (balances, bases, investable, isa_remaining). -/
def fastInvestIsa (arr : ArrayScenario) (cashIdx nAssets : ℕ)
    (st : List ℚ × List ℚ × ℚ × ℚ) : List ℚ × List ℚ × ℚ × ℚ :=
  (List.range nAssets).foldl
    (fun acc i =>
      if acc.2.2.1 ≤ 0 ∨ acc.2.2.2 ≤ 0 then acc
      else if !(listGetN arr.asset_types i == 1) then acc
      else
        let contrib := listGetQ arr.asset_annual_contrib i
        let cap := if 0 < contrib then contrib else acc.2.2.2
        let amount := min acc.2.2.1 (min acc.2.2.2 cap)
        if 0 < amount then
          (modifyIdx (fun b => b - amount) cashIdx (modifyIdx (fun b => b + amount) i acc.1),
            modifyIdx (fun b => b + amount) i acc.2.1,
            acc.2.2.1 - amount, acc.2.2.2 - amount)
        else acc)
    st

/-- GIA investment leg of the kernel (engine_fast.py lines 670-682). State is
(balances, bases, investable). -/
def fastInvestGia (arr : ArrayScenario) (cashIdx nAssets : ℕ)
    (st : List ℚ × List ℚ × ℚ) : List ℚ × List ℚ × ℚ :=
  (List.range nAssets).foldl
    (fun acc i =>
      if acc.2.2 ≤ 0 then acc
      else if !(listGetN arr.asset_types i == 2) then acc
      else
        let contrib := listGetQ arr.asset_annual_contrib i
        let cap := if 0 < contrib then contrib else acc.2.2
        let amount := min acc.2.2 cap
        if 0 < amount then
          (modifyIdx (fun b => b - amount) cashIdx (modifyIdx (fun b => b + amount) i acc.1),
            modifyIdx (fun b => b + amount) i acc.2.1,
            acc.2.2 - amount)
        else acc)
    st

/-- One simulated year of the Numba kernel `_simulate_all_iterations`
(engine_fast.py lines 423-747). -/
def fastYearStep (arr : ArrayScenario) (ret : ReturnsMatrix)
    (wIsPension : List ℕ) (wAssetIdx : List ℤ) (nWithdrawals : ℕ) (cashIdx : ℤ)
    (it yIdx : ℕ) (year : ℤ) (st : FastIterState) : FastIterState × YearOut :=
  let nPeople := arr.people_birth_years.length
  let nSalaries := arr.salary_person_idx.length
  let nRentals := arr.rental_gross_annual.length
  let nGifts := arr.gift_gross_annual.length
  let nExpenses := arr.expense_annual_amount.length
  let nAssets := arr.asset_names.length
  let nPensions := arr.pension_keys.length
  let infl := arr.assumptions.inflation_rate
  let is_all_retired := fastAllRetired
    (arr.people_is_child.zip (arr.people_birth_years.zip arr.people_retirement_ages)) year
  -- salaries
  let salRes := (List.range nSalaries).foldl
    (fun (acc : List ℚ × List ℚ × ℚ × ℚ × ℚ) s =>
      let p_idx := listGetZ arr.salary_person_idx s
      if p_idx < 0 ∨ (nPeople : ℤ) ≤ p_idx then acc
      else
        let pn := p_idx.toNat
        let age := year - listGetZ arr.people_birth_years pn
        if listGetZ arr.people_retirement_ages pn ≤ age then acc
        else
          let sy := listGetZ arr.salary_start_year s
          if 0 ≤ sy ∧ year < sy then acc
          else
            let ey := listGetZ arr.salary_end_year s
            if 0 ≤ ey ∧ ey < year then acc
            else
              let g := listGetQ acc.1 s * (1 + listGetQ arr.salary_growth_rate s)
              let employee := g * listGetQ arr.salary_employee_pct s
              let employer := g * listGetQ arr.salary_employer_pct s
              let pens2 :=
                match (List.range nPensions).find?
                    (fun j => listGetZ arr.pension_person_idx j == p_idx) with
                | some j => modifyIdx (fun b => b + employee + employer) j acc.2.1
                | none => acc.2.1
              (acc.1.set s g, pens2, acc.2.2.1 + g, acc.2.2.2.1 + employee,
                acc.2.2.2.2 + employer))
    (st.salary_gross, st.pension_balances, (0 : ℚ), (0 : ℚ), (0 : ℚ))
  let salary_gross2 := salRes.1
  let pensionBal2 := salRes.2.1
  let salary_gross_total := salRes.2.2.1
  let employee_pension_total := salRes.2.2.2.1
  let employer_pension_total := salRes.2.2.2.2
  -- rental income
  let rentRes := (List.range nRentals).foldl
    (fun (acc : List ℚ × ℚ) r =>
      let sy := listGetZ arr.rental_start_year r
      if 0 ≤ sy ∧ year < sy then acc
      else
        let ey := listGetZ arr.rental_end_year r
        if 0 ≤ ey ∧ ey < year then acc
        else
          let g := listGetQ acc.1 r * (1 + listGetQ arr.rental_growth_rate r)
          (acc.1.set r g, acc.2 + g))
    (st.rental_gross, (0 : ℚ))
  -- gift income
  let giftRes := (List.range nGifts).foldl
    (fun (acc : List ℚ × ℚ) g =>
      let sy := listGetZ arr.gift_start_year g
      if 0 ≤ sy ∧ year < sy then acc
      else
        let ey := listGetZ arr.gift_end_year g
        if 0 ≤ ey ∧ ey < year then acc
        else
          let v := listGetQ acc.1 g * (1 + listGetQ arr.gift_growth_rate g)
          (acc.1.set g v, acc.2 + v))
    (st.gift_gross, (0 : ℚ))
  let rental_income_gross := rentRes.2
  let gift_income_total := giftRes.2
  let taxable_salary := max 0 (salary_gross_total - employee_pension_total)
  let income_tax := fastCalculateIncomeTax taxable_salary
  let ni_paid := fastCalculateNi salary_gross_total
  let salary_net := salary_gross_total - income_tax - ni_paid - employee_pension_total
  let rental_income_tax := fastCalculateIncomeTax (taxable_salary + rental_income_gross) -
    fastCalculateIncomeTax taxable_salary
  let rental_income_net := rental_income_gross - rental_income_tax
  -- mortgage
  let mortRes :=
    if arr.has_mortgage ∧ 0 < st.mortgage_balance then
      fastStepMortgage st.mortgage_balance arr.mortgage_annual_interest_rate
        arr.mortgage_monthly_payment
    else (st.mortgage_balance, 0)
  let mortgage_balance2 := mortRes.1
  let mortgage_payment := mortRes.2
  -- expenses
  let expRes := (List.range nExpenses).foldl
    (fun (acc : List ℚ × ℚ) e =>
      let amt := listGetQ acc.1 e
      let exps2 := if arr.expense_is_inflation_linked.getD e false then
          acc.1.set e (amt * (1 + infl))
        else acc.1
      (exps2, acc.2 + amt))
    (st.expense_amounts, (0 : ℚ))
  -- child costs (dependents only), inflated each year
  let childRes := (List.range nPeople).foldl
    (fun (acc : List ℚ × ℚ) p =>
      if listGetN arr.people_is_child p == 1 then
        let age := year - listGetZ arr.people_birth_years p
        let spend := if age < listGetZ arr.people_leaves_household_age p then
            listGetQ acc.1 p
          else 0
        (acc.1.set p (listGetQ acc.1 p * (1 + infl)), acc.2 + spend)
      else acc)
    (st.child_costs, (0 : ℚ))
  let expense_total := expRes.2 + childRes.2
  -- state pension
  let state_pension_income := (List.range nPeople).foldl
    (fun s p =>
      let age := year - listGetZ arr.people_birth_years p
      if listGetZ arr.people_state_pension_ages p ≤ age then s + st.state_pension else s) 0
  let state_pension2 := st.state_pension * (1 + infl)
  let extra_retirement_spend := if is_all_retired then arr.annual_spend_target else 0
  let total_outflows := expense_total + mortgage_payment + extra_retirement_spend
  let monthly_outflows := if 0 < total_outflows then total_outflows / 12 else 0
  let emergency_target := monthly_outflows * arr.assumptions.emergency_fund_months
  let assetBal1 :=
    if 0 ≤ cashIdx then
      modifyIdx (fun b => b +
        (salary_net + rental_income_net + gift_income_total + state_pension_income) -
        total_outflows) cashIdx.toNat st.asset_balances
    else st.asset_balances
  let cashBal := if 0 ≤ cashIdx then listGetQ assetBal1 cashIdx.toNat else 0
  let wd :=
    if 0 ≤ cashIdx ∧ cashBal < emergency_target then
      let w := (List.range nWithdrawals).foldl
        (fastWithdrawStep arr year state_pension_income cashIdx.toNat nPensions nAssets
          wIsPension wAssetIdx)
        { asset_balances := assetBal1, asset_cost_bases := st.asset_cost_bases
          pension_balances := pensionBal2
          shortfall := emergency_target - cashBal
          cgt_rem := arr.assumptions.cgt_annual_allowance
          cgt_paid := 0, pen_net := 0, pen_tax := 0 }
      if listGetQ w.asset_balances cashIdx.toNat < 0 then
        { w with asset_balances := modifyIdx (fun _ => 0) cashIdx.toNat w.asset_balances }
      else w
    else
      { asset_balances := assetBal1, asset_cost_bases := st.asset_cost_bases
        pension_balances := pensionBal2, shortfall := 0
        cgt_rem := arr.assumptions.cgt_annual_allowance
        cgt_paid := 0, pen_net := 0, pen_tax := 0 }
  -- invest excess cash: ISA then GIA, in array order
  let invested :=
    if 0 ≤ cashIdx then
      let investable := max 0 (listGetQ wd.asset_balances cashIdx.toNat - emergency_target)
      if 0 < investable then
        let afterIsa := fastInvestIsa arr cashIdx.toNat nAssets
          (wd.asset_balances, wd.asset_cost_bases, investable,
            arr.assumptions.isa_annual_limit)
        let afterGia := fastInvestGia arr cashIdx.toNat nAssets
          (afterIsa.1, afterIsa.2.1, afterIsa.2.2.1)
        (afterGia.1, afterGia.2.1)
      else (wd.asset_balances, wd.asset_cost_bases)
    else (wd.asset_balances, wd.asset_cost_bases)
  -- asset growth
  let growth := (List.range nAssets).foldl
    (fun (acc : List ℚ × ℚ) i =>
      let inv := listGetQ acc.1 i * ret.assetRet it yIdx i
      (modifyIdx (fun b => b + inv) i acc.1, acc.2 + inv))
    (invested.1, (0 : ℚ))
  -- pension growth
  let pgrowth := (List.range nPensions).foldl
    (fun (acc : List ℚ × ℚ) j =>
      let inv := listGetQ acc.1 j * ret.pensionRet it yIdx j
      (modifyIdx (fun b => b + inv) j acc.1, acc.2 + inv))
    (wd.pension_balances, (0 : ℚ))
  let investment_returns := growth.2 + pgrowth.2
  let pension_balance := pgrowth.1.sum
  let isa_balance := (List.range nAssets).foldl
    (fun s i => if listGetN arr.asset_types i == 1 then s + listGetQ growth.1 i else s) 0
  let cash_balance := (List.range nAssets).foldl
    (fun s i => if listGetN arr.asset_types i == 0 then s + listGetQ growth.1 i else s) 0
  let total_assets := growth.1.sum + pension_balance
  let total_liabilities := mortgage_balance2
  let net_worth := total_assets - total_liabilities
  let total_income := salary_net + rental_income_net + gift_income_total +
    wd.pen_net + state_pension_income
  let total_tax := income_tax + rental_income_tax + wd.pen_tax + wd.cgt_paid + ni_paid
  let out : YearOut :=
    { net_worth := net_worth, salary_gross := salary_gross_total, salary_net := salary_net
      rental_income := rental_income_net, gift_income := gift_income_total
      pension_income := wd.pen_net, state_pension_income := state_pension_income
      investment_returns := investment_returns, total_income := total_income
      total_expenses := total_outflows, mortgage_payment := mortgage_payment
      pension_contributions := employee_pension_total + employer_pension_total
      fun_fund := extra_retirement_spend
      income_tax_paid := income_tax + rental_income_tax + wd.pen_tax + wd.cgt_paid
      ni_paid := ni_paid, total_tax := total_tax
      isa_balance := isa_balance, pension_balance := pension_balance
      cash_balance := cash_balance, total_assets := total_assets
      mortgage_balance := mortgage_balance2, total_liabilities := total_liabilities
      mortgage_paid_off := if mortgage_balance2 ≤ 0 then 1 else 0
      is_depleted := if total_assets ≤ 0 then 1 else 0 }
  ({ asset_balances := growth.1, asset_cost_bases := invested.2
     pension_balances := pgrowth.1, mortgage_balance := mortgage_balance2
     salary_gross := salary_gross2, rental_gross := rentRes.1, gift_gross := giftRes.1
     expense_amounts := expRes.1, state_pension := state_pension2
     child_costs := childRes.1 }, out)

/-- One full iteration of the kernel's outer `prange` loop: fresh array
copies, then the year loop. -/
def fastSimulateIteration (arr : ArrayScenario) (ret : ReturnsMatrix)
    (wIsPension : List ℕ) (wAssetIdx : List ℤ) (nWithdrawals : ℕ) (cashIdx : ℤ)
    (it : ℕ) : List YearOut :=
  let init : FastIterState :=
    { asset_balances := arr.asset_balances, asset_cost_bases := arr.asset_cost_bases
      pension_balances := arr.pension_balances, mortgage_balance := arr.mortgage_balance
      salary_gross := arr.salary_gross_annual, rental_gross := arr.rental_gross_annual
      gift_gross := arr.gift_gross_annual, expense_amounts := arr.expense_annual_amount
      state_pension := arr.assumptions.state_pension_annual
      child_costs := arr.people_annual_cost }
  ((List.range ret.nYears).foldl
    (fun (acc : FastIterState × List YearOut) yIdx =>
      let r := fastYearStep arr ret wIsPension wAssetIdx nWithdrawals cashIdx it yIdx
        (arr.years.getD yIdx 0) acc.1
      (r.1, acc.2 ++ [r.2]))
    (init, [])).2

/-- `_run_monte_carlo_fast` (engine_fast.py lines 115-225): builds the
withdrawal order by `(-priority, asset_index)` — the pension slot carries index
-1 — finds the cash column, and runs every iteration through the kernel. -/
def fastWithdrawalLe (x y : ℤ × ℕ × ℤ) : Bool :=
  if x.1 = y.1 then decide (x.2.2 ≤ y.2.2) else decide (y.1 < x.1)

/-- The kernel driver's withdrawal order (engine_fast.py lines 129-137): one
(priority, is_pension, asset_index) triple per non-cash asset plus the pension
slot at index -1, sorted by `(-priority, index)`. -/
def fastWithdrawalItems (nAssets : ℕ) (asset_types : List ℕ) (prios : List ℤ)
    (pensionPriority : ℤ) : List (ℤ × ℕ × ℤ) :=
  let items :=
    ((List.range nAssets).filter (fun i => !(listGetN asset_types i == 0))).map
      (fun i => (listGetZ prios i, (0 : ℕ), (i : ℤ))) ++
    [(pensionPriority, (1 : ℕ), (-1 : ℤ))]
  pySort fastWithdrawalLe items

def runMonteCarloFast (arr : ArrayScenario) (ret : ReturnsMatrix) :
    List (List YearOut) :=
  let nAssets := arr.asset_names.length
  let sorted := fastWithdrawalItems nAssets arr.asset_types arr.asset_withdrawal_priority
    arr.pension_withdrawal_priority
  let wIsPension := sorted.map (fun x => x.2.1)
  let wAssetIdx := sorted.map (fun x => x.2.2)
  let cashIdx : ℤ :=
    match (List.range nAssets).find? (fun i => listGetN arr.asset_types i == 0) with
    | some i => (i : ℤ)
    | none => -1
  (List.range ret.nIter).map
    (fastSimulateIteration arr ret wIsPension wAssetIdx sorted.length cashIdx)

/-- Numba availability; the environment-dependent `_HAS_NUMBA` flag is
modelled as the acceleration being present. -/
def hasNumba : Bool := true

/-- `run_with_cached_returns_fast` (engine_fast.py lines 87-105): builds the
array scenario, then either runs the kernel or falls back to the reference
engine. Note the kernel path performs no tensor-shape validation. -/
def runWithCachedReturnsFast (sc : SimulationScenario) (ret : ReturnsMatrix)
    (enableNumba : Bool := true) : Except EngineErr (List (List YearOut)) :=
  let arr := buildArrayScenario sc ret
  if enableNumba && hasNumba then Except.ok (runMonteCarloFast arr ret)
  else runWithCachedReturns sc ret

/-! ## Concrete instances used in the theorems below -/

/-- One named output field of a cached-returns run, as an
iterations × years matrix (`none` when the run raised). -/
def matField (f : YearOut → ℚ) (r : Except EngineErr (List (List YearOut))) :
    Option (List (List ℚ)) :=
  r.toOption.map (fun m => m.map (fun row => row.map f))

/-- An adult who reached their planned retirement age long ago. -/
def adultA : PersonEntity :=
  { key := "a", birth_year := 1950, planned_retirement_age := some 60 }

/-- A young child. -/
def childC : PersonEntity := { key := "c", birth_year := 2020, is_child := true }

/-- A zero-balance cash account. -/
def cashOnlyAsset : AssetAccount :=
  { name := "Cash", asset_type := "CASH", withdrawal_priority := 0, balance := 0
    annual_contribution := 0, growth_rate_mean := 0, growth_rate_std := 0
    contributions_end_at_retirement := false, cost_basis := 0 }

/-- A one-year scenario whose only adult is retired and which also contains a
child, with a discretionary spend target of 1000. -/
def scRetiredWithChild : SimulationScenario :=
  { start_year := 2030, end_year := 2030, people := [adultA, childC]
    salary_by_person := [], pension_by_person := [], assets := [cashOnlyAsset]
    mortgage := none, expenses := [], annual_spend_target := 1000 }

/-- A 1-iteration, 1-year, 1-asset all-zero returns tensor. -/
def retZero1 : ReturnsMatrix :=
  { nIter := 1, nYears := 1, nAssets := 1, years := [2030]
    assetRet := fun _ _ _ => 0, pensionKeys := [], pensionRet := fun _ _ _ => 0 }

/-- The array restatement of `scRetiredWithChild` (the value
`build_array_scenario` produces for it, proved below). -/
def arrLit : ArrayScenario :=
  { years := [2030]
    people_birth_years := [1950, 2020]
    people_retirement_ages := [60, 999]
    people_state_pension_ages := [999, 999]
    people_is_child := [0, 1]
    people_annual_cost := [0, 0]
    people_leaves_household_age := [18, 18]
    salary_person_idx := [], salary_gross_annual := [], salary_growth_rate := []
    salary_employee_pct := [], salary_employer_pct := [], salary_start_year := []
    salary_end_year := []
    rental_gross_annual := [], rental_growth_rate := [], rental_start_year := []
    rental_end_year := []
    gift_gross_annual := [], gift_growth_rate := [], gift_start_year := []
    gift_end_year := []
    asset_types := [0], asset_withdrawal_priority := [0], asset_balances := [0]
    asset_cost_bases := [0], asset_annual_contrib := [0]
    asset_contrib_end_retirement := [false], asset_names := ["Cash"]
    pension_person_idx := [], pension_balances := [], pension_keys := []
    has_mortgage := false, mortgage_balance := 0, mortgage_annual_interest_rate := 0
    mortgage_monthly_payment := 0
    expense_annual_amount := [], expense_is_inflation_linked := []
    annual_spend_target := 1000, pension_withdrawal_priority := 100
    assumptions := {} }

/-- The kernel's initial per-iteration state for `arrLit`. -/
def initLit : FastIterState :=
  { asset_balances := [0], asset_cost_bases := [0], pension_balances := []
    mortgage_balance := 0, salary_gross := [], rental_gross := [], gift_gross := []
    expense_amounts := [], state_pension := 11500, child_costs := [0, 0] }

/-- The repository's own test mortgage (test_engine_equivalence.py lines
115-119 and routers/simulation.py lines 188-191 construct `MortgageAccount`
exactly like this, without `months_remaining`). -/
def mortgageInput : MortgageInput :=
  { balance := 200000, annual_interest_rate := 1/25, monthly_payment := 1200 }

/-- A one-year scenario with a mortgage and a cash account. -/
def scWithMortgage : SimulationScenario :=
  { start_year := 2030, end_year := 2030, people := [adultA]
    salary_by_person := [], pension_by_person := [], assets := [cashOnlyAsset]
    mortgage := some mortgageInput, expenses := [] }

/-- A returns tensor with three asset columns (two more than
`scWithMortgage`/`scCashOnly` use). -/
def retWide3 : ReturnsMatrix :=
  { nIter := 1, nYears := 1, nAssets := 3, years := [2030]
    assetRet := fun _ _ _ => 0, pensionKeys := [], pensionRet := fun _ _ _ => 0 }

/-- A one-year scenario with a single cash account and nothing else. -/
def scCashOnly : SimulationScenario :=
  { start_year := 2030, end_year := 2030, people := [adultA]
    salary_by_person := [], pension_by_person := [], assets := [cashOnlyAsset]
    mortgage := none, expenses := [] }

/-- An ISA account holding 100. -/
def isaAsset100 : AssetAccount :=
  { name := "Isa", asset_type := "ISA", withdrawal_priority := 50, balance := 100
    annual_contribution := 0, growth_rate_mean := 0, growth_rate_std := 0
    contributions_end_at_retirement := false, cost_basis := 100 }

/-- A one-year scenario holding cash and an ISA worth 100. -/
def scCashIsa : SimulationScenario :=
  { start_year := 2030, end_year := 2030, people := [adultA]
    salary_by_person := [], pension_by_person := [], assets := [cashOnlyAsset, isaAsset100]
    mortgage := none, expenses := [] }

/-- A returns tensor whose second asset column holds a -200% annual return. -/
def retMinus2 : ReturnsMatrix :=
  { nIter := 1, nYears := 1, nAssets := 2, years := [2030]
    assetRet := fun _ _ a => if a == 1 then -2 else 0
    pensionKeys := [], pensionRet := fun _ _ _ => 0 }

/-- A scenario with no cash asset and a mortgage. -/
def scNoCashMortgage : SimulationScenario :=
  { start_year := 2030, end_year := 2030, people := [adultA]
    salary_by_person := [], pension_by_person := [], assets := [isaAsset100]
    mortgage := some mortgageInput, expenses := [] }

/-- A scenario with no cash asset and no mortgage. -/
def scNoCash : SimulationScenario :=
  { start_year := 2030, end_year := 2030, people := [adultA]
    salary_by_person := [], pension_by_person := [], assets := [isaAsset100]
    mortgage := none, expenses := [] }

/-- A 1-iteration tensor matching `scNoCash` (one real asset plus the
synthetic cash column). -/
def retNoCash : ReturnsMatrix :=
  { nIter := 1, nYears := 1, nAssets := 2, years := [2030]
    assetRet := fun _ _ _ => 0, pensionKeys := [], pensionRet := fun _ _ _ => 0 }

/-- GIA asset named "b" with the same withdrawal priority as `tiedIsaA`. -/
def tiedGiaB : AssetAccount :=
  { name := "b", asset_type := "GIA", withdrawal_priority := 10, balance := 100
    annual_contribution := 0, growth_rate_mean := 0, growth_rate_std := 0
    contributions_end_at_retirement := false, cost_basis := 100 }

/-- ISA asset named "a", listed after "b" but alphabetically before it. -/
def tiedIsaA : AssetAccount :=
  { name := "a", asset_type := "ISA", withdrawal_priority := 10, balance := 100
    annual_contribution := 0, growth_rate_mean := 0, growth_rate_std := 0
    contributions_end_at_retirement := false, cost_basis := 100 }


/-- A one-year scenario holding cash plus the two tied-priority assets, GIA
"b" listed before ISA "a", with pension withdrawal priority 5. -/
def scTied : SimulationScenario :=
  { start_year := 2030, end_year := 2030, people := [adultA]
    salary_by_person := [], pension_by_person := []
    assets := [cashOnlyAsset, tiedGiaB, tiedIsaA]
    mortgage := none, expenses := [], pension_withdrawal_priority := 5 }

/-- Source index shared by the two engines' withdrawal orders: a real asset's
index, -1 for the synthetic pension slot. -/
def entrySrc (e : WithdrawalEntry) : ℤ :=
  match e.asset_idx with
  | some i => (i : ℤ)
  | none => -1

/-- (priority, source) key of a reference-order entry. -/
def prKey (e : WithdrawalEntry) : ℤ × ℤ := (e.priority, entrySrc e)

/-- (priority, source) key of a kernel-order triple. -/
def piKey (x : ℤ × ℕ × ℤ) : ℤ × ℤ := (x.1, x.2.2)

/-- The common comparator both engines' sort keys reduce to when no two
priorities tie. -/
def pairLe (x y : ℤ × ℤ) : Bool :=
  if x.1 = y.1 then decide (x.2 ≤ y.2) else decide (y.1 < x.1)

/-! ## Helper lemmas: income-tax band values and the drawdown solver -/


theorem tax_of_le_allowance (x : ℚ) (h : x ≤ 12570) : calculateIncomeTax x ukBands = 0 := by
  simp only [calculateIncomeTax, ukBands]
  rcases le_or_lt x 0 with h0 | h0
  · simp [h0]
  · rw [if_neg (show ¬ x ≤ 0 by linarith), min_eq_left h,
      if_pos (show x - x ≤ 0 by linarith)]

theorem tax_basic (x : ℚ) (h1 : 12570 ≤ x) (h2 : x ≤ 50270) :
    calculateIncomeTax x ukBands = (x - 12570) * (1/5) := by
  simp only [calculateIncomeTax, ukBands]
  rw [if_neg (show ¬ x ≤ 0 by linarith), min_eq_right h1]
  rcases le_or_lt (x - 12570) 0 with h3 | h3
  · rw [if_pos h3]; nlinarith
  · rw [if_neg (show ¬ x - 12570 ≤ 0 by linarith),
      show max (0:ℚ) (50270 - 12570) = 37700 by norm_num,
      min_eq_left (show x - 12570 ≤ (37700:ℚ) by linarith),
      if_pos (show x - 12570 - (x - 12570) ≤ 0 by linarith)]

theorem tax_higher (x : ℚ) (h1 : 50270 ≤ x) (h2 : x ≤ 125140) :
    calculateIncomeTax x ukBands = 7540 + (x - 50270) * (2/5) := by
  simp only [calculateIncomeTax, ukBands]
  rw [if_neg (show ¬ x ≤ 0 by linarith),
    min_eq_right (show (12570:ℚ) ≤ x by linarith),
    if_neg (show ¬ x - 12570 ≤ 0 by linarith),
    show max (0:ℚ) (50270 - 12570) = 37700 by norm_num,
    min_eq_right (show (37700:ℚ) ≤ x - 12570 by linarith)]
  rcases le_or_lt (x - 12570 - 37700) 0 with h3 | h3
  · rw [if_pos h3]; nlinarith
  · rw [if_neg (show ¬ x - 12570 - 37700 ≤ 0 by linarith),
      show max (0:ℚ) (125140 - 50270) = 74870 by norm_num,
      min_eq_left (show x - 12570 - 37700 ≤ (74870:ℚ) by linarith),
      if_pos (show x - 12570 - 37700 - (x - 12570 - 37700) ≤ 0 by linarith)]
    ring

theorem tax_additional (x : ℚ) (h1 : 125140 ≤ x) :
    calculateIncomeTax x ukBands = 37488 + (x - 125140) * (9/20) := by
  simp only [calculateIncomeTax, ukBands]
  rw [if_neg (show ¬ x ≤ 0 by linarith),
    min_eq_right (show (12570:ℚ) ≤ x by linarith),
    if_neg (show ¬ x - 12570 ≤ 0 by linarith),
    show max (0:ℚ) (50270 - 12570) = 37700 by norm_num,
    min_eq_right (show (37700:ℚ) ≤ x - 12570 by linarith),
    if_neg (show ¬ x - 12570 - 37700 ≤ 0 by linarith),
    show max (0:ℚ) (125140 - 50270) = 74870 by norm_num,
    min_eq_right (show (74870:ℚ) ≤ x - 12570 - 37700 by linarith)]
  rcases le_or_lt (x - 12570 - 37700 - 74870) 0 with h3 | h3
  · rw [if_pos h3]
    have hx : x = 125140 := by linarith
    subst hx; norm_num
  · rw [if_neg (show ¬ x - 12570 - 37700 - 74870 ≤ 0 by linarith)]; ring

theorem bandStep_skip (bs be rate cur needed rem : ℚ) (h : be ≤ cur) :
    solveBandStep bs be rate cur needed rem = Sum.inr (cur, needed, rem) := by
  simp only [solveBandStep, if_pos h]

theorem bandStep_stop (bs be rate cur needed rem : ℚ) (h1 : cur < be) (h2 : bs ≤ cur)
    (h3 : rem ≤ (be - cur) * (4/3 - rate)) :
    solveBandStep bs be rate cur needed rem =
      Sum.inl (needed + rem / (4/3 - rate)) := by
  simp only [solveBandStep]
  rw [max_eq_left h2, if_neg (show ¬ be ≤ cur by linarith),
    if_neg (show ¬ be - cur ≤ 0 by linarith), if_pos h3]

theorem bandStep_pass (bs be rate cur needed rem : ℚ) (h1 : cur < be) (h2 : bs ≤ cur)
    (h3 : (be - cur) * (4/3 - rate) < rem) :
    solveBandStep bs be rate cur needed rem =
      Sum.inr (be, needed + (be - cur), rem - (be - cur) * (4/3 - rate)) := by
  simp only [solveBandStep]
  rw [max_eq_left h2, if_neg (show ¬ be ≤ cur by linarith),
    if_neg (show ¬ be - cur ≤ 0 by linarith), if_neg (not_le.mpr h3)]

theorem solve_taxable_exact (t o : ℚ) (ht : 0 < t) (ho : 0 ≤ o) :
    0 < solveTaxableAmount t o ukBands ∧
    (4/3) * solveTaxableAmount t o ukBands -
      (calculateIncomeTax (o + solveTaxableAmount t o ukBands) ukBands -
        calculateIncomeTax o ukBands) = t := by
  rcases lt_or_le o 12570 with hA | hB0
  · -- region A : o below the personal allowance
    rcases le_or_lt t ((12570 - o) * (4/3 - 0)) with h1 | h1
    · -- stop in the allowance band
      have hS : solveTaxableAmount t o ukBands = 0 + t / (4/3 - 0) := by
        simp only [solveTaxableAmount, ukBands]
        rw [if_neg (not_le.mpr ht), max_eq_right ho, bandStep_stop 0 12570 0 o 0 t hA ho h1]
      have hd : t / (4/3 - 0) * (4/3 - 0) = t := div_mul_cancel₀ _ (by norm_num)
      have hdp : 0 < t / (4/3 - 0) := div_pos ht (by norm_num)
      have hub : t / (4/3 - 0) ≤ 12570 - o := by
        rw [div_le_iff₀ (by norm_num)]; linarith
      rw [hS, tax_of_le_allowance o (by linarith),
        tax_of_le_allowance (o + (0 + t / (4/3 - 0))) (by linarith)]
      constructor
      · linarith
      · linarith
    · rcases le_or_lt (t - (12570 - o) * (4/3 - 0)) ((50270 - 12570) * (4/3 - 1/5)) with h2 | h2
      · -- stop in the basic band
        have hS : solveTaxableAmount t o ukBands =
            (0 + (12570 - o)) + (t - (12570 - o) * (4/3 - 0)) / (4/3 - 1/5) := by
          simp only [solveTaxableAmount, ukBands]
          rw [if_neg (not_le.mpr ht), max_eq_right ho, bandStep_pass 0 12570 0 o 0 t hA ho h1]
          dsimp only
          rw [bandStep_stop 12570 50270 (1/5) 12570 (0 + (12570 - o))
            (t - (12570 - o) * (4/3 - 0)) (by norm_num) (by norm_num) h2]
        set d := (t - (12570 - o) * (4/3 - 0)) / (4/3 - 1/5) with hddef
        have hd : d * (4/3 - 1/5) = t - (12570 - o) * (4/3 - 0) :=
          div_mul_cancel₀ _ (by norm_num)
        have hdp : 0 < d := div_pos (by linarith) (by norm_num)
        have hub : d ≤ 37700 := by
          rw [hddef, div_le_iff₀ (by norm_num)]; linarith
        rw [hS, tax_of_le_allowance o (by linarith),
          tax_basic (o + (0 + (12570 - o) + d)) (by linarith) (by linarith)]
        constructor
        · linarith
        · linarith
      · rcases le_or_lt (t - (12570 - o) * (4/3 - 0) - (50270 - 12570) * (4/3 - 1/5))
            ((125140 - 50270) * (4/3 - 2/5)) with h3 | h3
        · -- stop in the higher band
          have hS : solveTaxableAmount t o ukBands =
              ((0 + (12570 - o)) + (50270 - 12570)) +
                (t - (12570 - o) * (4/3 - 0) - (50270 - 12570) * (4/3 - 1/5)) / (4/3 - 2/5) := by
            simp only [solveTaxableAmount, ukBands]
            rw [if_neg (not_le.mpr ht), max_eq_right ho, bandStep_pass 0 12570 0 o 0 t hA ho h1]
            dsimp only
            rw [bandStep_pass 12570 50270 (1/5) 12570 (0 + (12570 - o))
              (t - (12570 - o) * (4/3 - 0)) (by norm_num) (by norm_num) h2]
            dsimp only
            rw [bandStep_stop 50270 125140 (2/5) 50270 (0 + (12570 - o) + (50270 - 12570))
              (t - (12570 - o) * (4/3 - 0) - (50270 - 12570) * (4/3 - 1/5))
              (by norm_num) (by norm_num) h3]
          set d := (t - (12570 - o) * (4/3 - 0) - (50270 - 12570) * (4/3 - 1/5)) / (4/3 - 2/5)
            with hddef
          have hd : d * (4/3 - 2/5) =
              t - (12570 - o) * (4/3 - 0) - (50270 - 12570) * (4/3 - 1/5) :=
            div_mul_cancel₀ _ (by norm_num)
          have hdp : 0 < d := div_pos (by linarith) (by norm_num)
          have hub : d ≤ 74870 := by
            rw [hddef, div_le_iff₀ (by norm_num)]; linarith
          rw [hS, tax_of_le_allowance o (by linarith),
            tax_higher (o + (0 + (12570 - o) + (50270 - 12570) + d)) (by linarith) (by linarith)]
          constructor
          · linarith
          · linarith
        · -- additional-rate band
          have hS : solveTaxableAmount t o ukBands =
              (((0 + (12570 - o)) + (50270 - 12570)) + (125140 - 50270)) +
                (t - (12570 - o) * (4/3 - 0) - (50270 - 12570) * (4/3 - 1/5) -
                  (125140 - 50270) * (4/3 - 2/5)) / (4/3 - 9/20) := by
            simp only [solveTaxableAmount, ukBands]
            rw [if_neg (not_le.mpr ht), max_eq_right ho, bandStep_pass 0 12570 0 o 0 t hA ho h1]
            dsimp only
            rw [bandStep_pass 12570 50270 (1/5) 12570 (0 + (12570 - o))
              (t - (12570 - o) * (4/3 - 0)) (by norm_num) (by norm_num) h2]
            dsimp only
            rw [bandStep_pass 50270 125140 (2/5) 50270 (0 + (12570 - o) + (50270 - 12570))
              (t - (12570 - o) * (4/3 - 0) - (50270 - 12570) * (4/3 - 1/5))
              (by norm_num) (by norm_num) h3]
            dsimp only
            rw [if_neg (show ¬ (4:ℚ)/3 - 9/20 ≤ 0 by norm_num)]
          set d := (t - (12570 - o) * (4/3 - 0) - (50270 - 12570) * (4/3 - 1/5) -
            (125140 - 50270) * (4/3 - 2/5)) / (4/3 - 9/20) with hddef
          have hd : d * (4/3 - 9/20) = t - (12570 - o) * (4/3 - 0) -
              (50270 - 12570) * (4/3 - 1/5) - (125140 - 50270) * (4/3 - 2/5) :=
            div_mul_cancel₀ _ (by norm_num)
          have hdp : 0 < d := div_pos (by linarith) (by norm_num)
          rw [hS, tax_of_le_allowance o (by linarith),
            tax_additional (o + (0 + (12570 - o) + (50270 - 12570) + (125140 - 50270) + d))
              (by linarith)]
          constructor
          · linarith
          · linarith
  · rcases lt_or_le o 50270 with hB | hC0
    · -- region B : o in the basic band
      rcases le_or_lt t ((50270 - o) * (4/3 - 1/5)) with h1 | h1
      · have hS : solveTaxableAmount t o ukBands = 0 + t / (4/3 - 1/5) := by
          simp only [solveTaxableAmount, ukBands]
          rw [if_neg (not_le.mpr ht), max_eq_right ho, bandStep_skip 0 12570 0 o 0 t hB0]
          dsimp only
          rw [bandStep_stop 12570 50270 (1/5) o 0 t hB hB0 h1]
        set d := t / (4/3 - 1/5) with hddef
        have hd : d * (4/3 - 1/5) = t := div_mul_cancel₀ _ (by norm_num)
        have hdp : 0 < d := div_pos ht (by norm_num)
        have hub : d ≤ 50270 - o := by
          rw [hddef, div_le_iff₀ (by norm_num)]; linarith
        rw [hS, tax_basic o hB0 (by linarith), tax_basic (o + (0 + d)) (by linarith) (by linarith)]
        constructor
        · linarith
        · linarith
      · rcases le_or_lt (t - (50270 - o) * (4/3 - 1/5)) ((125140 - 50270) * (4/3 - 2/5)) with h2 | h2
        · have hS : solveTaxableAmount t o ukBands =
              (0 + (50270 - o)) + (t - (50270 - o) * (4/3 - 1/5)) / (4/3 - 2/5) := by
            simp only [solveTaxableAmount, ukBands]
            rw [if_neg (not_le.mpr ht), max_eq_right ho, bandStep_skip 0 12570 0 o 0 t hB0]
            dsimp only
            rw [bandStep_pass 12570 50270 (1/5) o 0 t hB hB0 h1]
            dsimp only
            rw [bandStep_stop 50270 125140 (2/5) 50270 (0 + (50270 - o))
              (t - (50270 - o) * (4/3 - 1/5)) (by norm_num) (by norm_num) h2]
          set d := (t - (50270 - o) * (4/3 - 1/5)) / (4/3 - 2/5) with hddef
          have hd : d * (4/3 - 2/5) = t - (50270 - o) * (4/3 - 1/5) :=
            div_mul_cancel₀ _ (by norm_num)
          have hdp : 0 < d := div_pos (by linarith) (by norm_num)
          have hub : d ≤ 74870 := by
            rw [hddef, div_le_iff₀ (by norm_num)]; linarith
          rw [hS, tax_basic o hB0 (by linarith),
            tax_higher (o + (0 + (50270 - o) + d)) (by linarith) (by linarith)]
          constructor
          · linarith
          · linarith
        · have hS : solveTaxableAmount t o ukBands =
              ((0 + (50270 - o)) + (125140 - 50270)) +
                (t - (50270 - o) * (4/3 - 1/5) - (125140 - 50270) * (4/3 - 2/5)) / (4/3 - 9/20) := by
            simp only [solveTaxableAmount, ukBands]
            rw [if_neg (not_le.mpr ht), max_eq_right ho, bandStep_skip 0 12570 0 o 0 t hB0]
            dsimp only
            rw [bandStep_pass 12570 50270 (1/5) o 0 t hB hB0 h1]
            dsimp only
            rw [bandStep_pass 50270 125140 (2/5) 50270 (0 + (50270 - o))
              (t - (50270 - o) * (4/3 - 1/5)) (by norm_num) (by norm_num) h2]
            dsimp only
            rw [if_neg (show ¬ (4:ℚ)/3 - 9/20 ≤ 0 by norm_num)]
          set d := (t - (50270 - o) * (4/3 - 1/5) - (125140 - 50270) * (4/3 - 2/5)) / (4/3 - 9/20)
            with hddef
          have hd : d * (4/3 - 9/20) =
              t - (50270 - o) * (4/3 - 1/5) - (125140 - 50270) * (4/3 - 2/5) :=
            div_mul_cancel₀ _ (by norm_num)
          have hdp : 0 < d := div_pos (by linarith) (by norm_num)
          rw [hS, tax_basic o hB0 (by linarith),
            tax_additional (o + (0 + (50270 - o) + (125140 - 50270) + d)) (by linarith)]
          constructor
          · linarith
          · linarith
    · rcases lt_or_le o 125140 with hC | hD
      · -- region C : o in the higher band
        rcases le_or_lt t ((125140 - o) * (4/3 - 2/5)) with h1 | h1
        · have hS : solveTaxableAmount t o ukBands = 0 + t / (4/3 - 2/5) := by
            simp only [solveTaxableAmount, ukBands]
            rw [if_neg (not_le.mpr ht), max_eq_right ho, bandStep_skip 0 12570 0 o 0 t (by linarith)]
            dsimp only
            rw [bandStep_skip 12570 50270 (1/5) o 0 t hC0]
            dsimp only
            rw [bandStep_stop 50270 125140 (2/5) o 0 t hC hC0 h1]
          set d := t / (4/3 - 2/5) with hddef
          have hd : d * (4/3 - 2/5) = t := div_mul_cancel₀ _ (by norm_num)
          have hdp : 0 < d := div_pos ht (by norm_num)
          have hub : d ≤ 125140 - o := by
            rw [hddef, div_le_iff₀ (by norm_num)]; linarith
          rw [hS, tax_higher o hC0 (by linarith),
            tax_higher (o + (0 + d)) (by linarith) (by linarith)]
          constructor
          · linarith
          · linarith
        · have hS : solveTaxableAmount t o ukBands =
              (0 + (125140 - o)) + (t - (125140 - o) * (4/3 - 2/5)) / (4/3 - 9/20) := by
            simp only [solveTaxableAmount, ukBands]
            rw [if_neg (not_le.mpr ht), max_eq_right ho, bandStep_skip 0 12570 0 o 0 t (by linarith)]
            dsimp only
            rw [bandStep_skip 12570 50270 (1/5) o 0 t hC0]
            dsimp only
            rw [bandStep_pass 50270 125140 (2/5) o 0 t hC hC0 h1]
            dsimp only
            rw [if_neg (show ¬ (4:ℚ)/3 - 9/20 ≤ 0 by norm_num)]
          set d := (t - (125140 - o) * (4/3 - 2/5)) / (4/3 - 9/20) with hddef
          have hd : d * (4/3 - 9/20) = t - (125140 - o) * (4/3 - 2/5) :=
            div_mul_cancel₀ _ (by norm_num)
          have hdp : 0 < d := div_pos (by linarith) (by norm_num)
          rw [hS, tax_higher o hC0 (by linarith),
            tax_additional (o + (0 + (125140 - o) + d)) (by linarith)]
          constructor
          · linarith
          · linarith
      · -- region D : o at or above the higher-rate limit
        have hS : solveTaxableAmount t o ukBands = 0 + t / (4/3 - 9/20) := by
          simp only [solveTaxableAmount, ukBands]
          rw [if_neg (not_le.mpr ht), max_eq_right ho, bandStep_skip 0 12570 0 o 0 t (by linarith)]
          dsimp only
          rw [bandStep_skip 12570 50270 (1/5) o 0 t (by linarith)]
          dsimp only
          rw [bandStep_skip 50270 125140 (2/5) o 0 t hD]
          dsimp only
          rw [if_neg (show ¬ (4:ℚ)/3 - 9/20 ≤ 0 by norm_num)]
        set d := t / (4/3 - 9/20) with hddef
        have hd : d * (4/3 - 9/20) = t := div_mul_cancel₀ _ (by norm_num)
        have hdp : 0 < d := div_pos ht (by norm_num)
        rw [hS, tax_additional o hD, tax_additional (o + (0 + d)) (by linarith)]
        constructor
        · linarith
        · linarith


theorem tax_mono_lipschitz (x y : ℚ) (hxy : x ≤ y) :
    calculateIncomeTax x ukBands ≤ calculateIncomeTax y ukBands ∧
    calculateIncomeTax y ukBands - calculateIncomeTax x ukBands ≤ (9/20) * (y - x) := by
  rcases le_or_lt y 12570 with hy | hy
  · rw [tax_of_le_allowance x (by linarith), tax_of_le_allowance y hy]
    constructor <;> linarith
  · rcases le_or_lt y 50270 with hy2 | hy2
    · rw [tax_basic y (by linarith) hy2]
      rcases le_or_lt x 12570 with hx | hx
      · rw [tax_of_le_allowance x hx]; constructor <;> linarith
      · rw [tax_basic x (by linarith) (by linarith)]; constructor <;> linarith
    · rcases le_or_lt y 125140 with hy3 | hy3
      · rw [tax_higher y (by linarith) hy3]
        rcases le_or_lt x 12570 with hx | hx
        · rw [tax_of_le_allowance x hx]; constructor <;> linarith
        · rcases le_or_lt x 50270 with hx2 | hx2
          · rw [tax_basic x (by linarith) hx2]; constructor <;> linarith
          · rw [tax_higher x (by linarith) (by linarith)]; constructor <;> linarith
      · rw [tax_additional y (by linarith)]
        rcases le_or_lt x 12570 with hx | hx
        · rw [tax_of_le_allowance x hx]; constructor <;> linarith
        · rcases le_or_lt x 50270 with hx2 | hx2
          · rw [tax_basic x (by linarith) hx2]; constructor <;> linarith
          · rcases le_or_lt x 125140 with hx3 | hx3
            · rw [tax_higher x (by linarith) hx3]; constructor <;> linarith
            · rw [tax_additional x (by linarith)]; constructor <;> linarith

/-- C6: `calculate_income_tax` with the default bands is monotonically
non-decreasing, (9/20)-Lipschitz (hence continuous, in particular at every
band boundary), zero on all income up to the personal allowance (including
all non-positive income), and takes the documented values at the boundary
points 12570 and 50270. -/
theorem income_tax_band_properties :
    (∀ x y : ℚ, x ≤ y → calculateIncomeTax x ukBands ≤ calculateIncomeTax y ukBands) ∧
    (∀ x y : ℚ, x ≤ y →
      calculateIncomeTax y ukBands - calculateIncomeTax x ukBands ≤ (9/20) * (y - x)) ∧
    (∀ x : ℚ, x ≤ 12570 → calculateIncomeTax x ukBands = 0) ∧
    calculateIncomeTax 12570 ukBands = 0 ∧
    calculateIncomeTax 50270 ukBands = (50270 - 12570) * (1/5) ∧
    ((50270 : ℚ) - 12570) * (1/5) = 7540 := by
  refine ⟨fun x y h => (tax_mono_lipschitz x y h).1,
    fun x y h => (tax_mono_lipschitz x y h).2,
    fun x h => tax_of_le_allowance x h,
    tax_of_le_allowance 12570 (by norm_num), ?_, by norm_num⟩
  rw [tax_basic 50270 (by norm_num) (by norm_num)]

/-- Witness for `income_tax_band_properties` at concrete incomes. -/
theorem income_tax_band_properties_witness :
    calculateIncomeTax 20000 ukBands ≤ calculateIncomeTax 60000 ukBands ∧
    calculateIncomeTax 60000 ukBands - calculateIncomeTax 20000 ukBands ≤
      (9/20) * (60000 - 20000) ∧
    calculateIncomeTax 5000 ukBands = 0 := by
  refine ⟨income_tax_band_properties.1 20000 60000 (by norm_num),
    income_tax_band_properties.2.1 20000 60000 (by norm_num),
    income_tax_band_properties.2.2.1 5000 (by norm_num)⟩

/-- C5: for positive target and balance and non-negative other income,
`calculate_pension_drawdown` (default bands) returns a withdrawal capped by
the balance, 25%/75% tax-free/taxable split, marginal tax of the taxable 75%
stacked on the other income, and an exact net income whenever the uncapped
closed-form gross does not exceed the balance. -/
theorem pension_drawdown_solves_target (t o B : ℚ) (ht : 0 < t) (ho : 0 ≤ o) (hB : 0 < B) :
    (calculatePensionDrawdown t o B).gross_withdrawal ≤ B ∧
    (calculatePensionDrawdown t o B).tax_free_amount =
      (calculatePensionDrawdown t o B).gross_withdrawal * (1/4) ∧
    (calculatePensionDrawdown t o B).taxable_amount =
      (calculatePensionDrawdown t o B).gross_withdrawal * (3/4) ∧
    (calculatePensionDrawdown t o B).tax_paid =
      calculateIncomeTax (o + (calculatePensionDrawdown t o B).taxable_amount) ukBands -
        calculateIncomeTax o ukBands ∧
    (solveTaxableAmount t o ukBands / (3/4) ≤ B →
      (calculatePensionDrawdown t o B).net_income = t) := by
  have key := solve_taxable_exact t o ht ho
  have hcond : ¬ (t ≤ 0 ∨ B ≤ 0) := by push_neg; exact ⟨ht, hB⟩
  simp only [calculatePensionDrawdown, solveGrossWithdrawal, calculateForGross,
    if_neg hcond, if_pos key.1]
  refine ⟨min_le_right _ _, trivial, trivial, trivial, fun hcap => ?_⟩
  rw [min_eq_left hcap]
  have h34 : solveTaxableAmount t o ukBands / (3/4) * (3/4) =
      solveTaxableAmount t o ukBands := div_mul_cancel₀ _ (by norm_num)
  rw [h34]
  have h43 : solveTaxableAmount t o ukBands / (3/4) =
      (4/3) * solveTaxableAmount t o ukBands := by ring
  rw [h43]
  linarith [key.2]


/-- Witness for `pension_drawdown_solves_target` at a concrete input. -/
theorem pension_drawdown_solves_target_witness :
    (calculatePensionDrawdown 10000 0 1000000).gross_withdrawal ≤ 1000000 ∧
    (calculatePensionDrawdown 10000 0 1000000).net_income = 10000 := by
  have h := pension_drawdown_solves_target 10000 0 1000000 (by norm_num) (by norm_num)
    (by norm_num)
  have hS : solveTaxableAmount 10000 0 ukBands = 0 + 10000 / (4/3 - 0) := by
    simp only [solveTaxableAmount, ukBands]
    rw [if_neg (by norm_num), max_eq_right le_rfl,
      bandStep_stop 0 12570 0 0 0 10000 (by norm_num) le_rfl (by norm_num)]
  refine ⟨h.1, h.2.2.2.2 ?_⟩
  rw [hS]; norm_num


/-- C7 counterexample: two clauses of the claim fail on inputs outside the
non-negative region. With a negative input allowance (here -1) the returned
`cgt_allowance_remaining` clamps to 0, which exceeds the input; and with a
negative balance (here -5) the early return yields `gross_withdrawal = 0`,
which exceeds the balance. -/
theorem gia_withdrawal_allowance_counterexample :
    ¬ ((calculateGiaWithdrawal 10 10 10 (-1) (1/10)).cgt_allowance_remaining ≤ -1) ∧
    (calculateGiaWithdrawal 10 (-5) 10 0 (1/10)).gross_withdrawal = 0 ∧
    ¬ ((calculateGiaWithdrawal 10 (-5) 10 0 (1/10)).gross_withdrawal ≤ -5) := by
  refine ⟨?_, ?_, ?_⟩ <;> norm_num [calculateGiaWithdrawal]

/-- C7 amended: the returned `cgt_allowance_remaining` is non-negative for
EVERY input; `gross_withdrawal` never exceeds the balance provided the balance
is non-negative; and the returned allowance is bounded by the input allowance
provided that input is non-negative (a negative input is clamped to 0 first).
For positive requested and balance, the gross is min(requested, balance),
gains are realized in proportion max(0, balance - max(0, cost_basis)) /
balance, the clamped allowance max(0, input) is consumed before taxing the
remainder at the clamped CGT rate, net = gross - tax, and the remaining
allowance is the clamped input minus the allowance used. -/
theorem gia_withdrawal_invariants (requested balance cost_basis allowance rate : ℚ) :
    0 ≤ (calculateGiaWithdrawal requested balance cost_basis allowance
      rate).cgt_allowance_remaining ∧
    (0 ≤ balance →
      (calculateGiaWithdrawal requested balance cost_basis allowance rate).gross_withdrawal ≤
        balance) ∧
    (0 ≤ allowance →
      (calculateGiaWithdrawal requested balance cost_basis allowance
        rate).cgt_allowance_remaining ≤ allowance) ∧
    (0 < requested → 0 < balance →
      (calculateGiaWithdrawal requested balance cost_basis allowance rate).gross_withdrawal =
        min requested balance ∧
      (calculateGiaWithdrawal requested balance cost_basis allowance rate).gains_realized =
        (calculateGiaWithdrawal requested balance cost_basis allowance rate).gross_withdrawal *
          (max 0 (balance - max 0 cost_basis) / balance) ∧
      (calculateGiaWithdrawal requested balance cost_basis allowance rate).cgt_allowance_used =
        min (max 0 allowance)
          (calculateGiaWithdrawal requested balance cost_basis allowance rate).gains_realized ∧
      (calculateGiaWithdrawal requested balance cost_basis allowance rate).tax_paid =
        max 0 ((calculateGiaWithdrawal requested balance cost_basis allowance
            rate).gains_realized -
          (calculateGiaWithdrawal requested balance cost_basis allowance
            rate).cgt_allowance_used) * max 0 rate ∧
      (calculateGiaWithdrawal requested balance cost_basis allowance rate).net_withdrawal =
        (calculateGiaWithdrawal requested balance cost_basis allowance rate).gross_withdrawal -
          (calculateGiaWithdrawal requested balance cost_basis allowance rate).tax_paid ∧
      (calculateGiaWithdrawal requested balance cost_basis allowance
          rate).cgt_allowance_remaining =
        max 0 allowance -
          (calculateGiaWithdrawal requested balance cost_basis allowance
            rate).cgt_allowance_used) := by
  by_cases hcase : requested ≤ 0 ∨ balance ≤ 0
  · simp only [calculateGiaWithdrawal, if_pos hcase]
    refine ⟨le_max_left 0 allowance, fun hb => hb, fun ha => le_of_eq (max_eq_right ha),
      fun h1 h2 => ?_⟩
    rcases hcase with h | h <;> linarith
  · have hcase2 := hcase
    push_neg at hcase2
    obtain ⟨hreq, hbal⟩ := hcase2
    simp only [calculateGiaWithdrawal, if_neg hcase, max_eq_right (le_of_lt hbal),
      if_pos hbal]
    have hgross : (0:ℚ) ≤ min balance requested := le_min (le_of_lt hbal) (le_of_lt hreq)
    have hgains : (0:ℚ) ≤ min balance requested * (max 0 (balance - max 0 cost_basis) / balance) :=
      mul_nonneg hgross (div_nonneg (le_max_left _ _) (le_of_lt hbal))
    refine ⟨?_, fun _ => min_le_left _ _, fun ha => ?_, fun _ _ =>
      ⟨min_comm balance requested, trivial, trivial, trivial, trivial, trivial⟩⟩
    · exact sub_nonneg.mpr (min_le_left _ _)
    · rw [max_eq_right ha]
      have h0 : (0:ℚ) ≤ min allowance
          (min balance requested * (max 0 (balance - max 0 cost_basis) / balance)) :=
        le_min ha hgains
      linarith

/-- Witness for `gia_withdrawal_invariants` at a concrete input. -/
theorem gia_withdrawal_invariants_witness :
    (calculateGiaWithdrawal 50 100 40 3 (1/10)).gross_withdrawal ≤ 100 ∧
    (calculateGiaWithdrawal 50 100 40 3 (1/10)).gross_withdrawal = min 50 100 := by
  have h := gia_withdrawal_invariants 50 100 40 3 (1/10)
  exact ⟨h.2.1 (by norm_num), (h.2.2.2 (by norm_num) (by norm_num)).1⟩


set_option maxRecDepth 8000
set_option maxHeartbeats 1600000

/-! ## Engine evaluation helpers -/

theorem assetTypeCode_cash : assetTypeCode ("CASH") = 0 := by decide

theorem buildArr_eval : buildArrayScenario scRetiredWithChild retZero1 = arrLit := by
  norm_num [buildArrayScenario, scenarioAssetsForArrays, cashStub, personIdxForKey,
    assetTypeCode_cash, scRetiredWithChild, retZero1, adultA, childC, cashOnlyAsset, arrLit,
    List.enum, List.enumFrom, List.lookup]

/-- Reference engine on the retired-adult-plus-child scenario: the
discretionary extra spend is never added (`fun_fund` stays 0), because
`is_all_retired` quantifies over children too. -/
theorem refChild_funFund :
    matField YearOut.fun_fund (runWithCachedReturns scRetiredWithChild retZero1) =
      some [[0]] := by
  norm_num [matField, runWithCachedReturns, scenarioYears, refIterLoop, refSimulateSingleRun,
    engineAssets, cloneAsset, syntheticCashAsset, refWithdrawalOrder, pySort, insertLe,
    pyLower, refRunYears, refYearStep, refAllRetired, PersonEntity.isRetiredInYear,
    PersonEntity.ageInYear, PersonEntity.isStatePensionEligibleInYear,
    PersonEntity.canAccessPensionInYear, refSalaryPass, refSalaryInner, stepRentals,
    stepGifts, stepExpenses, calculateForSalary, calculateNiClass1,
    applyPensionContributionRelief, calculateIncomeTax, incomeTaxOnAdditionalIncome,
    assignPensionReturns, statePensionIncomeFor, updateLookup, modifyIdx, assetBalAt,
    refWithdrawStep, calculateTaxFreeWithdrawal, calculateGiaWithdrawal,
    calculatePensionDrawdown, investContribLe, refInvestIsa, refInvestGia,
    AssetAccount.beginYear, AssetAccount.deposit, AssetAccount.withdraw,
    AssetAccount.applyGrowth, PensionPot.beginYear, PensionPot.contribute,
    PensionPot.withdraw, PensionPot.step, TaxBreakdown.total_tax,
    scRetiredWithChild, retZero1, adultA, childC, cashOnlyAsset, ukBands, ukNiBands,
    List.range_succ, List.enum, List.enumFrom, List.lookup, List.filter, List.findIdx,
    List.findIdx.go, List.foldl, Except.toOption]

/-- Fast engine on the same scenario: the kernel skips children in the
all-retired check, so the full spend target 1000 is added. -/
theorem fastChild_funFund :
    matField YearOut.fun_fund (runWithCachedReturnsFast scRetiredWithChild retZero1) =
      some [[1000]] := by
  have harr : runWithCachedReturnsFast scRetiredWithChild retZero1 =
      Except.ok [fastSimulateIteration arrLit retZero1 [1] [-1] 1 0 0] := by
    rw [runWithCachedReturnsFast, buildArr_eval]
    norm_num [runMonteCarloFast, fastWithdrawalItems, fastWithdrawalLe, pySort, insertLe,
      arrLit, retZero1, listGetN, listGetZ, hasNumba, List.range_succ, List.filter,
      List.find?, List.foldl]
  have hstep : (fastYearStep arrLit retZero1 [1] [-1] 1 0 0 0 2030 initLit).2.fun_fund =
      1000 := by
    norm_num -zeta [fastYearStep, listGetQ, listGetZ, listGetN, arrLit, retZero1, initLit,
      fastAllRetired, fastAllRetiredGo, fastCalculateIncomeTax, fastCalculateNi,
      fastStepMortgage, List.range_succ, List.foldl, List.zip, List.zipWith, modifyIdx]
  have hiter : fastSimulateIteration arrLit retZero1 [1] [-1] 1 0 0 =
      [(fastYearStep arrLit retZero1 [1] [-1] 1 0 0 0 2030 initLit).2] := by
    norm_num [fastSimulateIteration, arrLit, retZero1, initLit, List.range_succ, List.foldl]
  rw [harr, hiter]
  norm_num [matField, Except.toOption, hstep]

/-- `refIterLoop` succeeds when every iteration does. -/
theorem refIterLoop_ok (sc : SimulationScenario) (ret : ReturnsMatrix) (l : List ℕ)
    (h : ∀ it ∈ l, (refSimulateSingleRun sc ret it).toOption.isSome = true) :
    (refIterLoop sc ret l).toOption.isSome = true := by
  induction l with
  | nil => rfl
  | cons it rest ih =>
    have h1 := h it (by simp)
    have h2 : ∀ j ∈ rest, (refSimulateSingleRun sc ret j).toOption.isSome = true :=
      fun j hj => h j (by simp [hj])
    rw [refIterLoop]
    rcases he : refSimulateSingleRun sc ret it with e | rows
    · rw [he] at h1
      simp [Except.toOption] at h1
    · rcases hr : refIterLoop sc ret rest with e2 | ms
      · have := ih h2
        rw [hr] at this
        simp [Except.toOption] at this
      · simp [Except.toOption]

/-- Number of working assets when the scenario lacks a cash account. -/
theorem engineAssets_nocash_length (sc : SimulationScenario)
    (h : (sc.assets.any (fun a => a.asset_type == "CASH")) = false) :
    engineAssets sc = sc.assets.map cloneAsset ++ [syntheticCashAsset] := by
  have hmap : ((sc.assets.map cloneAsset).any (fun a => a.asset_type == "CASH")) = false := by
    simpa [List.any_map, Function.comp, cloneAsset] using h
  simp [engineAssets, hmap]

/-! ## Claim theorems -/

/-- C1: the two engines do not agree within the claimed tolerance on every
scenario: with one retired adult, one child and spend target 1000, the
reference engine reports `fun_fund = 0` in every cell while the Numba kernel
reports 1000, violating |fast - ref| ≤ atol + rtol·|ref| for atol = 1,
rtol = 1/100 by three orders of magnitude. (The same scenario also makes
`total_expenses` diverge; scenarios with a mortgage make the reference run
raise instead of producing matrices at all.) -/
theorem engines_disagree_on_fun_fund :
    matField YearOut.fun_fund (runWithCachedReturns scRetiredWithChild retZero1) =
      some [[0]] ∧
    matField YearOut.fun_fund (runWithCachedReturnsFast scRetiredWithChild retZero1) =
      some [[1000]] ∧
    ¬ (|(1000 : ℚ) - 0| ≤ 1 + (1/100) * |(0 : ℚ)|) := by
  exact ⟨refChild_funFund, fastChild_funFund, by norm_num⟩

/-- C2 counterexample: in `scRetiredWithChild` every non-child person has
reached retirement age in 2030, yet the reference engine's discretionary
extra spend (`fun_fund`) is 0, not the 1000 target — children do count
against the reference engine's all-retired condition. -/
theorem ref_extra_spend_blocked_by_child :
    (∀ p ∈ scRetiredWithChild.people, p.is_child = false → p.isRetiredInYear 2030 = true) ∧
    scRetiredWithChild.annual_spend_target = 1000 ∧
    matField YearOut.fun_fund (runWithCachedReturns scRetiredWithChild retZero1) =
      some [[0]] ∧
    (0 : ℚ) ≠ 1000 := by
  refine ⟨?_, rfl, refChild_funFund, by norm_num⟩
  decide

/-- Characterisation of the kernel's all-retired loop, accumulator included. -/
theorem fastAllRetiredGo_spec (year : ℤ) (rows : List (ℕ × ℤ × ℤ)) (acc : Bool) :
    fastAllRetiredGo year rows acc = true ↔
      ((acc = true ∨ ∃ r ∈ rows, r.1 ≠ 1) ∧
        ∀ r ∈ rows, r.1 ≠ 1 → r.2.2 ≤ year - r.2.1) := by
  induction rows generalizing acc with
  | nil => simp [fastAllRetiredGo]
  | cons r rest ih =>
    obtain ⟨c, b, ra⟩ := r
    by_cases hc : c = 1
    · subst hc
      have hred : fastAllRetiredGo year ((1, b, ra) :: rest) acc =
          fastAllRetiredGo year rest acc := by
        simp [fastAllRetiredGo]
      rw [hred, ih]
      constructor
      · rintro ⟨h1, h2⟩
        refine ⟨h1.imp id (fun h => ?_), fun x hx hx1 => ?_⟩
        · obtain ⟨x, hx, hx1⟩ := h
          exact ⟨x, List.mem_cons_of_mem _ hx, hx1⟩
        · rcases List.mem_cons.mp hx with rfl | hx
          · simp at hx1
          · exact h2 x hx hx1
      · rintro ⟨h1, h2⟩
        refine ⟨h1.imp id (fun h => ?_), fun x hx hx1 => h2 x (List.mem_cons_of_mem _ hx) hx1⟩
        obtain ⟨x, hx, hx1⟩ := h
        rcases List.mem_cons.mp hx with rfl | hx
        · simp at hx1
        · exact ⟨x, hx, hx1⟩
    · have hbeq : ((c : ℕ) == 1) = false := by simpa using hc
      by_cases hret : year - b < ra
      · have hred : fastAllRetiredGo year ((c, b, ra) :: rest) acc = false := by
          simp [fastAllRetiredGo, hbeq, hret]
        rw [hred]
        constructor
        · intro h; exact absurd h (by simp)
        · rintro ⟨-, h2⟩
          have := h2 (c, b, ra) (by simp) (by simpa using hc)
          simp only at this
          omega
      · have hred : fastAllRetiredGo year ((c, b, ra) :: rest) acc =
            fastAllRetiredGo year rest true := by
          simp [fastAllRetiredGo, hbeq, hret]
        rw [hred, ih]
        constructor
        · rintro ⟨-, h2⟩
          refine ⟨Or.inr ⟨(c, b, ra), by simp, by simpa using hc⟩, ?_⟩
          rintro x hx hx1
          rcases List.mem_cons.mp hx with rfl | hx
          · simp only; omega
          · exact h2 x hx hx1
        · rintro ⟨-, h2⟩
          exact ⟨Or.inl rfl, fun x hx hx1 => h2 x (List.mem_cons_of_mem _ hx) hx1⟩

/-- C2 amended: the two engines implement different all-retired conditions.
The reference engine (`refAllRetired`, used by `refYearStep` to gate the
extra spend) requires a non-empty people list in which EVERY person —
children included, who are never retired — has reached retirement age; the
Numba kernel (`fastAllRetired`, used by `fastYearStep`) requires at least one
adult row and that every adult row (child flag ≠ 1) has reached its
retirement age, ignoring children. With no adults neither engine is
all-retired. -/
theorem all_retired_reference_vs_fast :
    (∀ (people : List PersonEntity) (year : ℤ),
      (refAllRetired people year = true ↔
        people ≠ [] ∧ ∀ p ∈ people, p.isRetiredInYear year = true)) ∧
    (∀ (rows : List (ℕ × ℤ × ℤ)) (year : ℤ),
      (fastAllRetired rows year = true ↔
        (∃ r ∈ rows, r.1 ≠ 1) ∧ ∀ r ∈ rows, r.1 ≠ 1 → r.2.2 ≤ year - r.2.1)) := by
  constructor
  · intro people year
    cases people with
    | nil => simp [refAllRetired]
    | cons p rest => simp [refAllRetired, List.all_eq_true]
  · intro rows year
    rw [fastAllRetired, fastAllRetiredGo_spec]
    simp

/-- C4: any scenario with a mortgage makes the reference cached-returns run
raise `TypeError` — both engine clone sites construct `MortgageAccount`
without the required `months_remaining` argument — while the Numba fast path
returns matrices for the same input, so the run never amortizes anything in
the reference engine. -/
theorem mortgage_scenario_reference_run_raises :
    runWithCachedReturns scWithMortgage retZero1 =
      Except.error EngineErr.typeErrorMissingMonthsRemaining ∧
    (runWithCachedReturnsFast scWithMortgage retZero1).toOption.isSome = true := by
  constructor
  · norm_num [runWithCachedReturns, scenarioYears, refIterLoop, refSimulateSingleRun,
      engineAssets, cloneAsset, mortgageInit, scWithMortgage, retZero1, adultA,
      cashOnlyAsset, mortgageInput, List.range_succ]
  · norm_num [runWithCachedReturnsFast, hasNumba, Except.toOption]

/-- C8 counterexample: a returns tensor with three asset columns against a
scenario whose working asset list has one entry is a shape mismatch, yet the
fast Numba entry point does not refuse — it returns matrices, silently
ignoring the extra columns (it performs no tensor-shape validation at all). -/
theorem fast_engine_accepts_mismatched_tensor :
    (engineAssets scCashOnly).length = 1 ∧
    retWide3.nAssets = 3 ∧
    (runWithCachedReturnsFast scCashOnly retWide3).toOption.isSome = true := by
  refine ⟨?_, rfl, ?_⟩
  · norm_num [engineAssets, cloneAsset, scCashOnly, cashOnlyAsset]
  · norm_num [runWithCachedReturnsFast, hasNumba, Except.toOption]

/-- C8 amended: the reference cached path does refuse: a year-span mismatch
raises before any simulation, and an asset-axis mismatch raises inside the
first iteration (hence whenever at least one iteration runs; with zero
iterations the asset check is never reached). The fast Numba path performs no
such validation. -/
theorem reference_rejects_shape_mismatch (sc : SimulationScenario) (ret : ReturnsMatrix) :
    ((scenarioYears sc).length ≠ ret.nYears →
      runWithCachedReturns sc ret = Except.error EngineErr.yearSpanMismatch) ∧
    ((scenarioYears sc).length = ret.nYears → ret.nAssets ≠ (engineAssets sc).length →
      1 ≤ ret.nIter →
      runWithCachedReturns sc ret = Except.error EngineErr.assetAxisMismatch) := by
  constructor
  · intro h
    simp [runWithCachedReturns, h]
  · intro hy hassets hiter
    obtain ⟨m, hm⟩ : ∃ m, ret.nIter = m + 1 :=
      ⟨ret.nIter - 1, by omega⟩
    rw [runWithCachedReturns]
    simp only [hy, if_neg, ne_eq, not_true_eq_false, if_false]
    rw [hm, List.range_succ_eq_map]
    rw [refIterLoop, refSimulateSingleRun]
    simp [hassets]

/-- Witness for `reference_rejects_shape_mismatch`: the three-column tensor
against the one-asset scenario is refused by the reference path. -/
theorem reference_rejects_shape_mismatch_witness :
    runWithCachedReturns scCashOnly retWide3 = Except.error EngineErr.assetAxisMismatch := by
  refine (reference_rejects_shape_mismatch scCashOnly retWide3).2 ?_ ?_ ?_
  · decide
  · decide
  · decide

/-- C9 counterexample: balances are not non-negative after every per-year
operation — a cached annual return of -200% drives the ISA balance of
`scCashIsa` to -100 in the reference engine's own output matrices (growth is
applied multiplicatively with no floor). -/
theorem growth_drives_isa_balance_negative :
    matField YearOut.isa_balance (runWithCachedReturns scCashIsa retMinus2) =
      some [[-100]] ∧
    ¬ ((0 : ℚ) ≤ -100) := by
  constructor
  · have hb1 : (("ISA" : String) == "CASH") = false := by decide
    have hb2 : (("CASH" : String) == "ISA") = false := by decide
    have hb3 : (("CASH" : String) == "GIA") = false := by decide
    have hb4 : (("ISA" : String) == "GIA") = false := by decide
    have hp1 : ¬ (("ISA" : String) = "CASH") := by decide
    have hp2 : ¬ (("CASH" : String) = "ISA") := by decide
    norm_num [hb1, hb2, hb3, hb4, hp1, hp2, matField, runWithCachedReturns, scenarioYears, refIterLoop,
      refSimulateSingleRun, engineAssets, cloneAsset, syntheticCashAsset,
      refWithdrawalOrder, pySort, insertLe, refWithdrawalLe, pyLower, refRunYears,
      refYearStep, refAllRetired, PersonEntity.isRetiredInYear, PersonEntity.ageInYear,
      PersonEntity.isStatePensionEligibleInYear, PersonEntity.canAccessPensionInYear,
      refSalaryPass, refSalaryInner, stepRentals, stepGifts, stepExpenses,
      calculateForSalary, calculateNiClass1, applyPensionContributionRelief,
      calculateIncomeTax, incomeTaxOnAdditionalIncome, assignPensionReturns,
      statePensionIncomeFor, updateLookup, modifyIdx, assetBalAt, refWithdrawStep,
      calculateTaxFreeWithdrawal, calculateGiaWithdrawal, calculatePensionDrawdown,
      investContribLe, refInvestIsa, refInvestGia, AssetAccount.beginYear,
      AssetAccount.deposit, AssetAccount.withdraw, AssetAccount.applyGrowth,
      PensionPot.beginYear, PensionPot.contribute, PensionPot.withdraw, PensionPot.step,
      TaxBreakdown.total_tax, scCashIsa, retMinus2, adultA, cashOnlyAsset, isaAsset100,
      ukBands, ukNiBands, List.range_succ, List.enum, List.enumFrom, List.lookup,
      List.filter, List.findIdx, List.findIdx.go, List.foldl, Except.toOption]
  · norm_num

/-- C9 amended: non-negativity does hold for the cash-flow mutators — deposit,
withdraw, begin-year, pension contribute/withdraw — starting from a
non-negative balance, and for growth exactly when the applied annual return is
at least -100%; returns below -100% (possible for any positive std, and for
arbitrary cached tensors) make balances negative, and the engine only floors
the primary cash balance after the shortfall pass. -/
theorem balances_nonneg_under_entity_ops (a : AssetAccount) (p : PensionPot) (amt r : ℚ) :
    (0 ≤ a.balance →
      0 ≤ (a.deposit amt).balance ∧ 0 ≤ (a.withdraw amt).balance ∧
        0 ≤ a.beginYear.balance) ∧
    (0 ≤ a.balance → -1 ≤ r → 0 ≤ (a.applyGrowth r).balance) ∧
    (0 ≤ p.balance →
      0 ≤ (p.contribute amt).balance ∧ 0 ≤ (p.withdraw amt).balance ∧
        0 ≤ p.beginYear.balance) ∧
    (0 ≤ p.balance → -1 ≤ p.annual_return → 0 ≤ p.step.balance) := by
  refine ⟨fun ha => ⟨?_, ?_, ha⟩, fun ha hr => ?_, fun hp => ⟨?_, ?_, hp⟩, fun hp hr => ?_⟩
  · rw [AssetAccount.deposit]
    split_ifs with h
    · exact ha
    · simp only
      linarith
  · rw [AssetAccount.withdraw]
    split_ifs with h
    · exact ha
    · simp only
      have := min_le_left a.balance amt
      linarith
  · rw [AssetAccount.applyGrowth]
    simp only
    nlinarith
  · rw [PensionPot.contribute]
    split_ifs with h
    · exact hp
    · simp only
      linarith
  · rw [PensionPot.withdraw]
    split_ifs with h
    · exact hp
    · simp only
      have := min_le_left p.balance amt
      linarith
  · rw [PensionPot.step, PensionPot.beginYear]
    simp only
    nlinarith

/-- Witness for `balances_nonneg_under_entity_ops` at a concrete account,
pot, amount and return. -/
theorem balances_nonneg_under_entity_ops_witness :
    0 ≤ (isaAsset100.withdraw 30).balance ∧
    0 ≤ (isaAsset100.applyGrowth (-1/2)).balance := by
  have h := balances_nonneg_under_entity_ops isaAsset100
    ({ balance := 50 } : PensionPot) 30 (-1/2)
  exact ⟨(h.1 (by norm_num [isaAsset100])).2.1, h.2.1 (by norm_num [isaAsset100]) (by norm_num)⟩

/-- C10 counterexample: it is not true that appending the synthetic cash
asset makes every cash-less run succeed — a cash-less scenario that also has
a mortgage still raises (the unrelated missing-`months_remaining` TypeError),
even with a correctly shaped tensor. -/
theorem cashless_scenario_with_mortgage_fails :
    (scNoCashMortgage.assets.any (fun a => a.asset_type == "CASH")) = false ∧
    runWithCachedReturns scNoCashMortgage retNoCash =
      Except.error EngineErr.typeErrorMissingMonthsRemaining := by
  constructor
  · decide
  · have hb1 : (("ISA" : String) == "CASH") = false := by decide
    have hp1 : ¬ (("ISA" : String) = "CASH") := by decide
    norm_num [hb1, hp1, runWithCachedReturns, scenarioYears, refIterLoop, refSimulateSingleRun,
      engineAssets, cloneAsset, syntheticCashAsset, mortgageInit, scNoCashMortgage,
      retNoCash, adultA, isaAsset100, mortgageInput, List.range_succ]

/-- C10 amended: when a scenario has no asset of type CASH, the reference
engine, the returns generator and the fast engine's array builder each append
one synthetic cash asset — named "Cash", type CASH, zero balance, zero growth
mean/std, zero cost basis, withdrawal priority 0 — so the generated tensor's
asset axis has exactly one more entry than the scenario's asset list, and a
mortgage-free cash-less scenario runs successfully against any tensor of
matching shape. -/
theorem synthetic_cash_appended (sc : SimulationScenario)
    (h : (sc.assets.any (fun a => a.asset_type == "CASH")) = false) :
    engineAssets sc = sc.assets.map cloneAsset ++ [syntheticCashAsset] ∧
    scenarioAssetsForReturns sc = sc.assets ++ [cashStub] ∧
    scenarioAssetsForArrays sc = sc.assets ++ [cashStub] ∧
    generatedReturnsNumAssets sc = sc.assets.length + 1 ∧
    syntheticCashAsset =
      { name := "Cash", asset_type := "CASH", withdrawal_priority := 0, balance := 0
        annual_contribution := 0, growth_rate_mean := 0, growth_rate_std := 0
        contributions_end_at_retirement := false, cost_basis := 0 } ∧
    cashStub =
      { name := "Cash", asset_type := "CASH", withdrawal_priority := 0, balance := 0
        annual_contribution := 0, growth_rate_mean := 0, growth_rate_std := 0
        contributions_end_at_retirement := false, cost_basis := 0 } ∧
    (sc.mortgage = none → ∀ ret : ReturnsMatrix, ret.nYears = (scenarioYears sc).length →
      ret.nAssets = sc.assets.length + 1 →
      (runWithCachedReturns sc ret).toOption.isSome = true) := by
  have hassets := engineAssets_nocash_length sc h
  refine ⟨hassets, by simp [scenarioAssetsForReturns, h],
    by simp [scenarioAssetsForArrays, h], ?_, rfl, rfl, ?_⟩
  · simp [generatedReturnsNumAssets, scenarioAssetsForReturns, h]
  · intro hmort ret hyears hax
    rw [runWithCachedReturns, if_neg (by omega)]
    apply refIterLoop_ok
    intro it hit
    have hlen : (engineAssets sc).length = sc.assets.length + 1 := by
      rw [hassets]
      simp
    rw [refSimulateSingleRun, if_neg (by omega), hmort]
    simp [Except.toOption]

/-- Witness for `synthetic_cash_appended` on the cash-less one-ISA scenario. -/
theorem synthetic_cash_appended_witness :
    engineAssets scNoCash = scNoCash.assets.map cloneAsset ++ [syntheticCashAsset] ∧
    (runWithCachedReturns scNoCash retNoCash).toOption.isSome = true := by
  have h := synthetic_cash_appended scNoCash (by decide)
  exact ⟨h.1, h.2.2.2.2.2.2 rfl retNoCash (by decide) (by decide)⟩


/-! ## C3: withdrawal-order machinery -/

theorem mem_insertLe (le : α → α → Bool) (x a : α) (l : List α) :
    a ∈ insertLe le x l ↔ a = x ∨ a ∈ l := by
  induction l with
  | nil => simp [insertLe]
  | cons y ys ih =>
    simp only [insertLe]
    by_cases h : le x y
    · simp [h]
    · simp only [h, Bool.false_eq_true, if_false, List.mem_cons, ih]
      tauto

theorem mem_pySort (le : α → α → Bool) (a : α) (l : List α) :
    a ∈ pySort le l ↔ a ∈ l := by
  induction l with
  | nil => simp [pySort]
  | cons x xs ih =>
    simp only [pySort, mem_insertLe, List.mem_cons, ih]

theorem insertLe_congr (le1 le2 : α → α → Bool) (x : α) (l : List α)
    (h : ∀ y ∈ l, le1 x y = le2 x y) :
    insertLe le1 x l = insertLe le2 x l := by
  induction l with
  | nil => rfl
  | cons y ys ih =>
    simp only [insertLe, h y (by simp)]
    by_cases h2 : le2 x y
    · simp [h2]
    · simp only [h2, Bool.false_eq_true, if_false]
      rw [ih (fun z hz => h z (List.mem_cons_of_mem _ hz))]

theorem pySort_congr (le1 le2 : α → α → Bool) (l : List α) (hnd : l.Nodup)
    (h : ∀ x ∈ l, ∀ y ∈ l, x ≠ y → le1 x y = le2 x y) :
    pySort le1 l = pySort le2 l := by
  induction l with
  | nil => rfl
  | cons x xs ih =>
    obtain ⟨hx, hxs⟩ := List.nodup_cons.mp hnd
    simp only [pySort]
    rw [ih hxs (fun a ha b hb hab =>
      h a (List.mem_cons_of_mem _ ha) b (List.mem_cons_of_mem _ hb) hab)]
    refine insertLe_congr le1 le2 x _ (fun y hy => ?_)
    have hyxs : y ∈ xs := (mem_pySort le2 y xs).mp hy
    refine h x (by simp) y (List.mem_cons_of_mem _ hyxs) (fun hxy => ?_)
    exact hx (hxy ▸ hyxs)

theorem insertLe_map (f : α → β) (le1 : α → α → Bool) (le2 : β → β → Bool)
    (hc : ∀ x y, le2 (f x) (f y) = le1 x y) (x : α) (l : List α) :
    insertLe le2 (f x) (l.map f) = (insertLe le1 x l).map f := by
  induction l with
  | nil => rfl
  | cons y ys ih =>
    simp only [List.map_cons, insertLe, hc]
    by_cases h : le1 x y
    · simp [h]
    · simp only [h, Bool.false_eq_true, if_false, List.map_cons, ih]

theorem pySort_map (f : α → β) (le1 : α → α → Bool) (le2 : β → β → Bool)
    (hc : ∀ x y, le2 (f x) (f y) = le1 x y) (l : List α) :
    pySort le2 (l.map f) = (pySort le1 l).map f := by
  induction l with
  | nil => rfl
  | cons x xs ih =>
    simp only [List.map_cons, pySort, ih]
    exact insertLe_map f le1 le2 hc x (pySort le1 xs)

theorem enumFrom_filter_map (q : α → Bool) (f : α → β) (l : List α) :
    ∀ k : ℕ,
      ((List.enumFrom k l).filter (fun ia => q ia.2)).map (fun ia => f ia.2) =
        (l.filter q).map f := by
  induction l with
  | nil => intro k; rfl
  | cons a rest ih =>
    intro k
    simp only [List.enumFrom, List.filter_cons]
    by_cases h : q a
    · simp [h, ih]
    · simp [h, ih]

theorem listGetD_map_get (f : α → β) (l : List α) (j : ℕ) (a : α) (d : β)
    (hja : l.get? j = some a) : (l.map f).getD j d = f a := by
  have h2 : l[j]? = some a := by
    rw [← List.get?_eq_getElem?]
    exact hja
  simp [List.getD_eq_getElem?_getD, List.getElem?_map, h2]

theorem enum_range_filter_correspond (q : α → Bool) (tcode : α → ℕ) (wprio : α → ℤ)
    (l : List α) :
    ∀ (k : ℕ) (T : List ℕ) (P : List ℤ),
      (∀ j a, l.get? j = some a → T.getD (k + j) 0 = tcode a) →
      (∀ j a, l.get? j = some a → P.getD (k + j) 0 = wprio a) →
      (∀ a ∈ l, q a = (tcode a == 0)) →
      ((List.enumFrom k l).filter (fun ia => !(q ia.2))).map
          (fun ia => (wprio ia.2, (ia.1 : ℤ))) =
        ((List.range' k l.length).filter (fun i => !(T.getD i 0 == 0))).map
          (fun i => (P.getD i 0, (i : ℤ))) := by
  induction l with
  | nil => intro k T P _ _ _; rfl
  | cons a rest ih =>
    intro k T P hT hP hq
    have hTa : T.getD k 0 = tcode a := by
      have := hT 0 a rfl
      simpa using this
    have hPa : P.getD k 0 = wprio a := by
      have := hP 0 a rfl
      simpa using this
    have hqa : q a = (tcode a == 0) := hq a (by simp)
    have htail := ih (k + 1) T P
      (fun j b hjb => by
        have := hT (j + 1) b hjb
        simpa [Nat.add_comm, Nat.add_assoc, Nat.add_left_comm] using this)
      (fun j b hjb => by
        have := hP (j + 1) b hjb
        simpa [Nat.add_comm, Nat.add_assoc, Nat.add_left_comm] using this)
      (fun b hb => hq b (List.mem_cons_of_mem _ hb))
    simp only [List.enumFrom, List.length_cons, List.range', List.filter_cons]
    by_cases h : tcode a = 0
    · have h1 : (!(q a)) = false := by simp [hqa, h]
      have h2 : (!(T.getD k 0 == 0)) = false := by rw [hTa]; simp [h]
      simp only [h1, h2, Bool.false_eq_true, if_false]
      exact htail
    · have h1 : (!(q a)) = true := by simp [hqa, h]
      have h2 : (!(T.getD k 0 == 0)) = true := by rw [hTa]; simp [h]
      simp only [h1, h2, if_true, List.map_cons, hPa]
      rw [htail]


theorem map_snd_prKey (l : List WithdrawalEntry) :
    (l.map prKey).map Prod.snd = l.map entrySrc := by
  rw [List.map_map]
  rfl

theorem map_snd_piKey (l : List (ℤ × ℕ × ℤ)) :
    (l.map piKey).map Prod.snd = l.map (fun x => x.2.2) := by
  rw [List.map_map]
  rfl

/-- When no two entries share a priority, the reference sort (by priority
then name) and the index sort agree through the (priority, source) key. -/
theorem sorted_pairs_agree (E : List WithdrawalEntry) (I : List (ℤ × ℕ × ℤ))
    (hbase : E.map prKey = I.map piKey)
    (hnd : (E.map (fun e => e.priority)).Nodup) :
    (pySort refWithdrawalLe E).map entrySrc =
      (pySort fastWithdrawalLe I).map (fun x => x.2.2) := by
  have hEnd : E.Nodup := hnd.of_map
  have hD : ∀ x ∈ E, ∀ y ∈ E, x ≠ y → x.priority ≠ y.priority := by
    intro x hx y hy hxy hpeq
    exact hxy (List.inj_on_of_nodup_map hnd hx hy hpeq)
  have hcongr : pySort refWithdrawalLe E =
      pySort (fun x y => pairLe (prKey x) (prKey y)) E := by
    refine pySort_congr _ _ E hEnd (fun x hx y hy hxy => ?_)
    have hp := hD x hx y hy hxy
    simp [refWithdrawalLe, pairLe, prKey, hp]
  have hmap1 : (pySort (fun x y => pairLe (prKey x) (prKey y)) E).map prKey =
      pySort pairLe (E.map prKey) :=
    (pySort_map prKey _ pairLe (fun x y => rfl) E).symm
  have hmap2 : pySort pairLe (I.map piKey) =
      (pySort fastWithdrawalLe I).map piKey :=
    pySort_map piKey fastWithdrawalLe pairLe (fun x y => rfl) I
  calc (pySort refWithdrawalLe E).map entrySrc
      = ((pySort refWithdrawalLe E).map prKey).map Prod.snd := (map_snd_prKey _).symm
    _ = (pySort pairLe (E.map prKey)).map Prod.snd := by rw [hcongr, hmap1]
    _ = (pySort pairLe (I.map piKey)).map Prod.snd := by rw [hbase]
    _ = ((pySort fastWithdrawalLe I).map piKey).map Prod.snd := by rw [hmap2]
    _ = (pySort fastWithdrawalLe I).map (fun x => x.2.2) := map_snd_piKey _


/-- C3 counterexample: with two non-cash assets sharing withdrawal priority
10 — GIA "b" listed (and indexed) before ISA "a" — the reference engine
breaks the tie by lowercase name ascending, putting "a" (index 2) before "b"
(index 1), while the kernel driver breaks it by array index ascending,
putting index 1 before index 2: the shortfall-pass source orders differ. -/
theorem withdrawal_tie_break_orders_differ :
    (refWithdrawalOrder (engineAssets scTied) scTied.pension_withdrawal_priority).map
        entrySrc = [2, 1, -1] ∧
    (buildArrayScenario scTied retWide3).asset_types = [0, 2, 1] ∧
    (buildArrayScenario scTied retWide3).asset_withdrawal_priority = [0, 10, 10] ∧
    (fastWithdrawalItems 3 [0, 2, 1] [0, 10, 10]
        scTied.pension_withdrawal_priority).map (fun x => x.2.2) = [1, 2, -1] ∧
    ([2, 1, -1] : List ℤ) ≠ [1, 2, -1] := by
  refine ⟨?_, ?_, ?_, ?_, by decide⟩
  · norm_num [refWithdrawalOrder, pySort, insertLe, refWithdrawalLe, entrySrc, engineAssets,
      cloneAsset, scTied, cashOnlyAsset, tiedGiaB, tiedIsaA, List.enum, List.enumFrom,
      List.filter,
      show pyLower ("b") = "b" from by decide, show pyLower ("a") = "a" from by decide,
      show ¬ ((['b'] : List Char) ≤ ['a']) from by decide]
  · norm_num [buildArrayScenario, scenarioAssetsForArrays, scTied, cashOnlyAsset, tiedGiaB,
      tiedIsaA,
      show assetTypeCode ("CASH") = 0 from by decide,
      show assetTypeCode ("GIA") = 2 from by decide,
      show assetTypeCode ("ISA") = 1 from by decide]
  · norm_num [buildArrayScenario, scenarioAssetsForArrays, scTied, cashOnlyAsset, tiedGiaB,
      tiedIsaA]
  · norm_num [fastWithdrawalItems, fastWithdrawalLe, pySort, insertLe, listGetN, listGetZ,
      List.range_succ, List.filter]

/-- C3 amended core: with canonical type strings and pairwise-distinct
withdrawal priorities (pension included), the two engines produce the same
source order. -/
theorem tie_free_withdrawal_orders_agree (assets : List AssetAccount) (p : ℤ)
    (hcanon : ∀ a ∈ assets, (a.asset_type == "CASH") = (assetTypeCode a.asset_type == 0))
    (hnd : (((assets.filter (fun a => !(a.asset_type == "CASH"))).map
        (fun a => a.withdrawal_priority)) ++ [p]).Nodup) :
    (refWithdrawalOrder assets p).map entrySrc =
      (fastWithdrawalItems assets.length
        (assets.map (fun a => assetTypeCode a.asset_type))
        (assets.map (fun a => a.withdrawal_priority)) p).map (fun x => x.2.2) := by
  simp only [refWithdrawalOrder, fastWithdrawalItems]
  apply sorted_pairs_agree
  · rw [List.map_append, List.map_append, List.map_map, List.map_map]
    congr 1
    have hcore := enum_range_filter_correspond
      (fun a : AssetAccount => a.asset_type == "CASH")
      (fun a => assetTypeCode a.asset_type)
      (fun a => a.withdrawal_priority) assets 0
      (assets.map (fun a => assetTypeCode a.asset_type))
      (assets.map (fun a => a.withdrawal_priority))
      (fun j a hja => by
        simpa using listGetD_map_get (fun a => assetTypeCode a.asset_type) assets j a 0 hja)
      (fun j a hja => by
        simpa using listGetD_map_get (fun a => a.withdrawal_priority) assets j a 0 hja)
      hcanon
    calc (assets.enum.filter (fun ia => !(ia.2.asset_type == "CASH"))).map
          (prKey ∘ fun ia =>
            WithdrawalEntry.mk ia.2.withdrawal_priority (pyLower ia.2.name) (some ia.1))
        = (assets.enum.filter (fun ia => !(ia.2.asset_type == "CASH"))).map
            (fun ia => (ia.2.withdrawal_priority, (ia.1 : ℤ))) := rfl
      _ = ((List.range' 0 assets.length).filter
            (fun i => !((assets.map (fun a => assetTypeCode a.asset_type)).getD i 0 == 0))).map
            (fun i => ((assets.map (fun a => a.withdrawal_priority)).getD i 0, (i : ℤ))) :=
          hcore
      _ = ((List.range assets.length).filter
            (fun i => !(listGetN (assets.map (fun a => assetTypeCode a.asset_type)) i == 0))).map
            (piKey ∘ fun i =>
              (listGetZ (assets.map (fun a => a.withdrawal_priority)) i, (0 : ℕ), (i : ℤ))) := by
          rw [List.range_eq_range']
          rfl
  · rw [List.map_append]
    have hitems : ((assets.enum.filter (fun ia => !(ia.2.asset_type == "CASH"))).map
          (fun ia =>
            WithdrawalEntry.mk ia.2.withdrawal_priority (pyLower ia.2.name) (some ia.1))).map
          (fun e => e.priority) =
        (assets.filter (fun a => !(a.asset_type == "CASH"))).map
          (fun a => a.withdrawal_priority) := by
      rw [List.map_map]
      exact enumFrom_filter_map (fun a : AssetAccount => !(a.asset_type == "CASH"))
        (fun a => a.withdrawal_priority) assets 0
    rw [hitems]
    simpa using hnd


/-- Witness for `tie_free_withdrawal_orders_agree`: cash, the ISA at priority
50 and the GIA at priority 10 with pension priority 100 — all distinct — give
the same order from both engines. -/
theorem tie_free_withdrawal_orders_agree_witness :
    (refWithdrawalOrder [cashOnlyAsset, isaAsset100, tiedGiaB] 100).map entrySrc =
      (fastWithdrawalItems 3
        ([cashOnlyAsset, isaAsset100, tiedGiaB].map (fun a => assetTypeCode a.asset_type))
        ([cashOnlyAsset, isaAsset100, tiedGiaB].map (fun a => a.withdrawal_priority))
        100).map (fun x => x.2.2) := by
  refine tie_free_withdrawal_orders_agree [cashOnlyAsset, isaAsset100, tiedGiaB] 100 ?_ ?_
  · decide
  · decide

end FinanceMgmt

